import Mathlib

/-!
Verification development for the data-insight pipeline
(`etl/data_processor.py`, `etl/main.py`, `models/ml_models.py`,
`backend/main.py`).

A pandas DataFrame is embedded as an association list from column names to
columns; a column is a list of cells.  A cell is either a missing value
(`NaN`, embedded as `Cell.na`), a numeric value (floats are embedded as
rationals), a string, or a timestamp.  Functions that can raise a Python
exception are embedded in `Except String`, the error string recording the
exception kind.  Library calls whose values the claims never inspect but
whose types matter (float `sqrt`, float `log`, the seeded train/test
shuffle, and the sklearn estimator fits) are taken as explicit function
parameters: each of them is a fixed deterministic function in the source
(floats are rationals, and every estimator is constructed with a fixed
`random_state`), so universally quantifying over the parameter covers the
real instantiation.
-/

namespace DSP

/-- A calendar timestamp, as the fields of a pandas `Timestamp` that the
source ever projects out (`dt.hour`, `dt.dayofweek`, `dt.month`,
`dt.dayofyear`, `dt.isocalendar().week`, `dt.quarter`).  Sub-hour fields
are never used by the source and are omitted. -/
structure Timestamp where
  year : Int
  month : Int
  day : Int
  hour : Int
deriving DecidableEq

/-- One cell of a DataFrame: missing (`NaN`), numeric, string, or datetime. -/
inductive Cell where
  | na : Cell
  | num (q : ℚ) : Cell
  | str (s : String) : Cell
  | dt (t : Timestamp) : Cell
deriving DecidableEq

/-- A DataFrame: association list from column name to column (cell list),
in column order.  pandas keeps all columns the same length; that invariant
is `WfDf` below and is assumed where a claim needs it. -/
abbrev Df : Type := List (String × List Cell)

/-- Column lookup (`df[name]`); `none` embeds a Python `KeyError`. -/
def dfCol (df : Df) (name : String) : Option (List Cell) :=
  match df with
  | [] => none
  | (n, c) :: rest => if n = name then some c else dfCol rest name

/-- Column assignment `df[name] = cells`: replaces the column in place if
present, otherwise appends it at the end (pandas semantics). -/
def dfSetCol (df : Df) (name : String) (cells : List Cell) : Df :=
  match df with
  | [] => [(name, cells)]
  | (n, c) :: rest =>
    if n = name then (n, cells) :: rest else (n, c) :: dfSetCol rest name cells

/-- Number of rows: the length of the first column (all columns agree on a
well-formed frame). -/
def dfNrows (df : Df) : Nat :=
  match df with
  | [] => 0
  | (_, c) :: _ => c.length

/-- `df.empty`: no columns or no rows. -/
def dfEmpty (df : Df) : Bool :=
  match df with
  | [] => true
  | (_, c) :: _ => c.isEmpty

/-- Well-formedness: every column has the same length (pandas cannot
represent a ragged frame). -/
def WfDf (df : Df) : Prop :=
  ∀ p ∈ df, (p.2 : List Cell).length = dfNrows df

instance : DecidablePred WfDf := fun df => by
  unfold WfDf; infer_instance

/-- Keep the rows selected by a boolean mask, columnwise. -/
def maskFilter (mask : List Bool) (cells : List Cell) : List Cell :=
  ((mask.zip cells).filter (fun p => p.1)).map (fun p => p.2)

/-- Apply a row mask to every column of the frame. -/
def dfMask (df : Df) (mask : List Bool) : Df :=
  df.map (fun p => (p.1, maskFilter mask p.2))

/-- The row mask of `df.dropna()`: a row survives iff no cell in it is
missing. -/
def dropnaMask (df : Df) : List Bool :=
  (List.range (dfNrows df)).map (fun i =>
    df.all (fun p => !(decide ((p.2 : List Cell).getD i Cell.na = Cell.na))))

/-- `df.dropna()`: drop every row containing a missing value. -/
def dropna (df : Df) : Df := dfMask df (dropnaMask df)

/-- `fillna(0)` on one cell. -/
def fill0Cell (c : Cell) : Cell :=
  match c with
  | Cell.na => Cell.num 0
  | c => c

/-- `df.fillna(0)`: replace every missing cell by numeric `0`. -/
def fillna0 (df : Df) : Df :=
  df.map (fun p => (p.1, p.2.map fill0Cell))

/-- Extract the rationals of a column, requiring every cell to be numeric;
a non-numeric cell embeds the `TypeError` a pandas arithmetic or
comparison op raises on object-dtype data. -/
def cellsToNums (cells : List Cell) : Except String (List ℚ) :=
  match cells with
  | [] => Except.ok []
  | Cell.num q :: rest => (cellsToNums rest).map (fun l => q :: l)
  | _ :: _ => Except.error "TypeError: non-numeric column"

/-- Fetch a column and require it numeric; absence is a `KeyError`. -/
def reqNumCol (df : Df) (name : String) : Except String (List ℚ) :=
  match dfCol df name with
  | none => Except.error ("KeyError: " ++ name)
  | some cells => cellsToNums cells

/-- Extract the timestamps of a column, requiring every cell to be a
datetime (the `.dt` accessor raises otherwise). -/
def cellsToDts (cells : List Cell) : Except String (List Timestamp) :=
  match cells with
  | [] => Except.ok []
  | Cell.dt t :: rest => (cellsToDts rest).map (fun l => t :: l)
  | _ :: _ => Except.error "TypeError: non-datetime column"

/-- Fetch a column and require it datetime-valued. -/
def reqDtCol (df : Df) (name : String) : Except String (List Timestamp) :=
  match dfCol df name with
  | none => Except.error ("KeyError: " ++ name)
  | some cells => cellsToDts cells

/-- Mean of a list of rationals (`0` on the empty list, which callers
guard against). -/
def meanQ (l : List ℚ) : ℚ := l.sum / l.length

/-- The last `w` entries of a length-`n` prefix: helper for rolling
windows.  `window xs i w` is the list of entries at indices
`i - w + 1 … i` when `i + 1 ≥ w`. -/
def window (xs : List ℚ) (i w : Nat) : List ℚ :=
  ((xs.take (i + 1)).reverse.take w).reverse

/-- `series.rolling(window=w).mean()` with the pandas default
`min_periods = w`: entry `i` is the mean of the last `w` values, missing
while fewer than `w` values are available. -/
def rollMean (w : Nat) (xs : List ℚ) : List (Option ℚ) :=
  (List.range xs.length).map (fun i =>
    if i + 1 < w then none else some (meanQ (window xs i w)))

/-- `series.rolling(window=w).std()` (sample standard deviation,
`ddof = 1`).  The float square root is the explicit parameter `sqrtQ`:
floats are rationals and `numpy.sqrt` is a fixed deterministic map on
them. -/
def rollStd (sqrtQ : ℚ → ℚ) (w : Nat) (xs : List ℚ) : List (Option ℚ) :=
  (List.range xs.length).map (fun i =>
    if i + 1 < w then none
    else
      let ws := window xs i w
      let m := meanQ ws
      some (sqrtQ ((ws.map (fun x => (x - m) ^ 2)).sum / (w - 1 : Nat))))

/-- `series.pct_change()`: `(x_i - x_{i-1}) / x_{i-1}`, missing at the
first entry.  A zero previous value gives a float `±inf`/`NaN`; rationals
have no infinities, so both are collapsed to the missing marker (no claim
inspects these entries). -/
def pctChange (xs : List ℚ) : List (Option ℚ) :=
  (List.range xs.length).map (fun i =>
    match i with
    | 0 => none
    | Nat.succ j =>
      let prev := xs.getD j 0
      if prev = 0 then none else some ((xs.getD i 0 - prev) / prev))

/-- `series.diff()`: `x_i - x_{i-1}`, missing at the first entry. -/
def diffSeries (xs : List ℚ) : List (Option ℚ) :=
  (List.range xs.length).map (fun i =>
    match i with
    | 0 => none
    | Nat.succ j => some (xs.getD i 0 - xs.getD j 0))

/-- `series.shift(k)` for `k > 0`: entry `i` is `x_{i-k}`, missing for
`i < k`. -/
def shiftPos (k : Nat) (cells : List Cell) : List Cell :=
  (List.range cells.length).map (fun i =>
    if i < k then Cell.na else cells.getD (i - k) Cell.na)

/-- `series.shift(-1)`: entry `i` is `x_{i+1}`, missing at the last
entry. -/
def shiftNeg1 (cells : List Cell) : List Cell :=
  (List.range cells.length).map (fun i =>
    if i + 1 < cells.length then cells.getD (i + 1) Cell.na else Cell.na)

/-- `series.ewm(span=s).mean()` with the pandas default `adjust=True`:
entry `i` is the `(1-α)^j`-weighted mean of the first `i+1` values with
`α = 2 / (s + 1)`. -/
def ewmMean (s : Nat) (xs : List ℚ) : List ℚ :=
  let r : ℚ := 1 - 2 / (s + 1 : ℚ)
  (List.range xs.length).map (fun i =>
    let ws := (List.range (i + 1)).map (fun j => r ^ j * xs.getD (i - j) 0)
    let den := (List.range (i + 1)).map (fun j => r ^ j)
    ws.sum / den.sum)

/-- Insertion of a rational into a sorted list (helper for sorting). -/
def insertQ (x : ℚ) (l : List ℚ) : List ℚ :=
  match l with
  | [] => [x]
  | y :: rest => if x ≤ y then x :: y :: rest else y :: insertQ x rest

/-- Insertion sort on rationals (used to embed `Series.quantile`). -/
def sortQ (l : List ℚ) : List ℚ := l.foldr insertQ []

/-- `series.quantile(q)` with the pandas default linear interpolation:
position `q * (n - 1)` in the sorted values, interpolating between the
neighbouring order statistics. -/
def quantileQ (q : ℚ) (l : List ℚ) : ℚ :=
  let s := sortQ l
  let n := s.length
  if n = 0 then 0
  else
    let pos : ℚ := q * (n - 1 : Nat)
    let i : Nat := pos.floor.toNat
    let frac : ℚ := pos - (i : ℚ)
    let lo := s.getD i 0
    let hi := s.getD (min (i + 1) (n - 1)) 0
    lo + (hi - lo) * frac

/-- Days since 1970-01-01 of a civil date (proleptic Gregorian). -/
def daysFromCivil (y m d : Int) : Int :=
  let y2 := y - (if m ≤ 2 then 1 else 0)
  let era := (if 0 ≤ y2 then y2 else y2 - 399) / 400
  let yoe := y2 - era * 400
  let mp := (m + 9) % 12
  let doy := (153 * mp + 2) / 5 + d - 1
  let doe := yoe * 365 + yoe / 4 - yoe / 100 + doy
  era * 146097 + doe - 719468

/-- `dt.dayofweek` (Monday = 0): 1970-01-01 was a Thursday (= 3). -/
def dayOfWeek (t : Timestamp) : Int :=
  (daysFromCivil t.year t.month t.day + 3) % 7

/-- `dt.dayofyear` (January 1st = 1). -/
def dayOfYear (t : Timestamp) : Int :=
  daysFromCivil t.year t.month t.day - daysFromCivil t.year 1 1 + 1

/-- Helper for the ISO week rule: the weekday of December 31st determines
whether a year has 53 ISO weeks. -/
def isoP (y : Int) : Int := (y + y / 4 - y / 100 + y / 400) % 7

/-- Number of ISO weeks in a year (52 or 53). -/
def isoWeeksInYear (y : Int) : Int :=
  if isoP y = 4 ∨ isoP (y - 1) = 3 then 53 else 52

/-- `dt.isocalendar().week`. -/
def isoWeek (t : Timestamp) : Int :=
  let wd := dayOfWeek t + 1
  let w := (dayOfYear t - wd + 10) / 7
  if w < 1 then isoWeeksInYear (t.year - 1)
  else if isoWeeksInYear t.year < w then 1
  else w

/-- `dt.quarter`. -/
def quarterOf (t : Timestamp) : Int := (t.month - 1) / 3 + 1

/-- Embed `Option ℚ` back into a cell (`none` is `NaN`). -/
def optCell (o : Option ℚ) : Cell :=
  match o with
  | none => Cell.na
  | some q => Cell.num q

/-- Fetch a column, absence being a `KeyError`. -/
def reqCol (df : Df) (name : String) : Except String (List Cell) :=
  match dfCol df name with
  | none => Except.error ("KeyError: " ++ name)
  | some c => Except.ok c

/-- `series.clip(lower=0)` on one numeric-or-missing cell (`clip` keeps
`NaN`); the column guard in `clipColStep` raises before this can see a
string or datetime cell. -/
def clipCell (c : Cell) : Cell :=
  match c with
  | Cell.num q => Cell.num (max q 0)
  | c => c

/-- The columns `clean_covid_data` clips at zero. -/
def covidClipCols : List String :=
  ["cases", "deaths", "recovered", "new_cases", "new_deaths", "new_recovered"]

/-- One guarded clipping step: `if col in df_clean.columns: clip`.  A
present column holding string or datetime cells makes
`Series.clip(lower=0)` raise `TypeError` (Python 3 refuses the str/int
comparison). -/
def clipColStep (df : Df) (name : String) : Except String Df :=
  match dfCol df name with
  | none => Except.ok df
  | some cells =>
    if cells.any (fun c => match c with
        | Cell.str _ => true
        | Cell.dt _ => true
        | _ => false) then
      Except.error "TypeError: non-numeric column"
    else Except.ok (dfSetCol df name (cells.map clipCell))

/-- The guarded clipping loop of `clean_covid_data`. -/
def clipNumericCovid (df : Df) : Except String Df :=
  covidClipCols.foldlM clipColStep df

/-- `np.where(den > 0, num / den * 100, 0)` on one entry (the derived rate
rule of the counts domain). -/
def rate100 (n d : ℚ) : ℚ := if 0 < d then n / d * 100 else 0

/-- `DataProcessor.clean_covid_data`: fill missing with 0, clip the listed
counters at 0, derive the two rate columns, the 7-sample rolling means and
the growth rates.  The rate/rolling/growth rules read `cases`, `deaths`
and `recovered` unguarded, so their absence (or non-numeric content) is an
exception; the clipping loop checks column presence but raises
`TypeError` on a present non-numeric column. -/
def clean_covid_data (df : Df) : Except String Df :=
  if dfEmpty df then Except.ok df else do
  let d1 ← clipNumericCovid (fillna0 df)
  let cases ← reqNumCol d1 "cases"
  let deaths ← reqNumCol d1 "deaths"
  let d2 := dfSetCol d1 "case_fatality_rate"
    ((List.zipWith rate100 deaths cases).map Cell.num)
  let recovered ← reqNumCol d2 "recovered"
  let d3 := dfSetCol d2 "recovery_rate"
    ((List.zipWith rate100 recovered cases).map Cell.num)
  let d4 := dfSetCol d3 "cases_7d_avg" ((rollMean 7 cases).map optCell)
  let d5 := dfSetCol d4 "deaths_7d_avg" ((rollMean 7 deaths).map optCell)
  let d6 := dfSetCol d5 "cases_growth_rate" ((pctChange cases).map optCell)
  let d7 := dfSetCol d6 "deaths_growth_rate" ((pctChange deaths).map optCell)
  Except.ok d7

/-- A fitted `LabelEncoder`: its sorted class list. -/
structure LabelEnc where
  classes : List String
deriving DecidableEq

/-- The mutable state of `DataProcessor` that the claims touch: the
`label_encoders` mapping (the `scalers`/`imputers` mappings are written
only by `prepare_ml_data`, which no orchestrator path calls). -/
abbrev ProcState : Type := List (String × LabelEnc)

/-- Dict update: overwrite in place or append. -/
def updateAssoc {α : Type} (l : List (String × α)) (k : String) (v : α) :
    List (String × α) :=
  match l with
  | [] => [(k, v)]
  | (n, x) :: rest =>
    if n = k then (n, v) :: rest else (n, x) :: updateAssoc rest k v

/-- Extract the strings of a column; `LabelEncoder.fit_transform` on mixed
or non-string data raises. -/
def cellsToStrs (cells : List Cell) : Except String (List String) :=
  match cells with
  | [] => Except.ok []
  | Cell.str s :: rest => (cellsToStrs rest).map (fun l => s :: l)
  | _ :: _ => Except.error "TypeError: non-string column"

/-- Insertion of a string into a sorted list. -/
def insertS (x : String) (l : List String) : List String :=
  match l with
  | [] => [x]
  | y :: rest => if x ≤ y then x :: y :: rest else y :: insertS x rest

/-- Insertion sort on strings. -/
def sortS (l : List String) : List String := l.foldr insertS []

/-- Sorted deduplicated class list, as `LabelEncoder.fit` computes. -/
def dedupSortS (l : List String) : List String := (sortS l).dedup

/-- The columns the weather IQR outlier loop checks. -/
def weatherIqrCols : List String :=
  ["temperature", "humidity", "pressure", "wind_speed"]

/-- One guarded IQR filtering step of `clean_weather_data`: quantiles of
the current column with a 1.5×IQR fence on both tails. -/
def iqrStep (df : Df) (name : String) : Except String Df :=
  match dfCol df name with
  | none => Except.ok df
  | some cells => do
    let xs ← cellsToNums cells
    let q1 := quantileQ (1/4) xs
    let q3 := quantileQ (3/4) xs
    let iqr := q3 - q1
    let lo := q1 - 3/2 * iqr
    let hi := q3 + 3/2 * iqr
    let mask := cells.map (fun c => match c with
      | Cell.num q => decide (lo ≤ q) && decide (q ≤ hi)
      | _ => false)
    Except.ok (dfMask df mask)

/-- The state-free part of `clean_weather_data`: returns the cleaned frame
together with the fitted label encoder when the `description` column is
present.  The encoder write to `self.label_encoders` is the last statement
of the Python function, so an exception leaves the state untouched. -/
def clean_weather_body (df : Df) : Except String (Df × Option LabelEnc) :=
  if dfEmpty df then Except.ok (df, none) else do
  let d0 := dropna df
  let d1 ← weatherIqrCols.foldlM iqrStep d0
  let temperature ← reqNumCol d1 "temperature"
  let d2 := dfSetCol d1 "temp_fahrenheit"
    ((temperature.map (fun q => q * 9 / 5 + 32)).map Cell.num)
  let d3 := dfSetCol d2 "feels_like" (temperature.map Cell.num)
  let dts ← reqDtCol d3 "datetime"
  let d4 := dfSetCol d3 "hour" (dts.map (fun t => Cell.num (t.hour : ℚ)))
  let d5 := dfSetCol d4 "day_of_week"
    (dts.map (fun t => Cell.num ((dayOfWeek t : Int) : ℚ)))
  let d6 := dfSetCol d5 "month" (dts.map (fun t => Cell.num ((t.month : Int) : ℚ)))
  match dfCol d6 "description" with
  | none => Except.ok (d6, none)
  | some cells => do
    let strs ← cellsToStrs cells
    let enc := LabelEnc.mk (dedupSortS strs)
    let codes := strs.map (fun s => Cell.num ((enc.classes.indexOf s : Nat) : ℚ))
    Except.ok (dfSetCol d6 "weather_code" codes, some enc)

/-- `DataProcessor.clean_weather_data`: drop rows with missing fields,
IQR-filter the listed numeric columns, derive temperature/time features,
and encode `description`, storing the fitted encoder on the processor. -/
def clean_weather_data (st : ProcState) (df : Df) : ProcState × Except String Df :=
  match clean_weather_body df with
  | Except.error e => (st, Except.error e)
  | Except.ok (out, none) => (st, Except.ok out)
  | Except.ok (out, some enc) =>
    (updateAssoc st "weather_description" enc, Except.ok out)

/-- Elementwise division of two optional series, a zero or missing divisor
yielding the missing marker (float `inf`/`NaN` collapse to it; no claim
inspects such entries). -/
def optDiv (a b : Option ℚ) : Option ℚ :=
  match a, b with
  | some x, some y => if y = 0 then none else some (x / y)
  | _, _ => none

/-- Elementwise sum of optional series. -/
def optAdd (a b : Option ℚ) : Option ℚ :=
  match a, b with
  | some x, some y => some (x + y)
  | _, _ => none

/-- `DataProcessor.clean_stock_data`: drop rows with missing fields, drop
rows with `|daily_return| ≥ 0.5`, then derive the technical indicators.
`daily_return`, `close` and `volume` are read unguarded. -/
def clean_stock_data (sqrtQ : ℚ → ℚ) (df : Df) : Except String Df :=
  if dfEmpty df then Except.ok df else do
  let d0 := dropna df
  let drCells ← reqCol d0 "daily_return"
  let dr ← cellsToNums drCells
  let d1 := dfMask d0 (dr.map (fun q => decide (|q| < 1/2)))
  let close ← reqNumCol d1 "close"
  let d2 := dfSetCol d1 "sma_5" ((rollMean 5 close).map optCell)
  let d3 := dfSetCol d2 "sma_20" ((rollMean 20 close).map optCell)
  let ema12 := ewmMean 12 close
  let d4 := dfSetCol d3 "ema_12" (ema12.map Cell.num)
  let ema26 := ewmMean 26 close
  let d5 := dfSetCol d4 "ema_26" (ema26.map Cell.num)
  let macd := List.zipWith (fun a b => a - b) ema12 ema26
  let d6 := dfSetCol d5 "macd" (macd.map Cell.num)
  let d7 := dfSetCol d6 "macd_signal" ((ewmMean 9 macd).map Cell.num)
  let delta := diffSeries close
  let gains := delta.map (fun o => match o with
    | some q => if 0 < q then q else 0
    | none => 0)
  let losses := delta.map (fun o => match o with
    | some q => if q < 0 then -q else 0
    | none => 0)
  let rs := List.zipWith optDiv (rollMean 14 gains) (rollMean 14 losses)
  let rsi := rs.map (fun o => o.map (fun r => 100 - 100 / (1 + r)))
  let d8 := dfSetCol d7 "rsi" (rsi.map optCell)
  let bbMid := rollMean 20 close
  let bbStd := rollStd sqrtQ 20 close
  let d9 := dfSetCol d8 "bb_middle" (bbMid.map optCell)
  let d10 := dfSetCol d9 "bb_upper"
    ((List.zipWith optAdd bbMid (bbStd.map (Option.map (· * 2)))).map optCell)
  let d11 := dfSetCol d10 "bb_lower"
    ((List.zipWith optAdd bbMid (bbStd.map (Option.map (· * -2)))).map optCell)
  let momentum := fun (k : Nat) => (List.range close.length).map (fun i =>
    if i < k then none
    else
      let p := close.getD (i - k) 0
      if p = 0 then none else some (close.getD i 0 / p - 1))
  let d12 := dfSetCol d11 "momentum_5" ((momentum 5).map optCell)
  let d13 := dfSetCol d12 "momentum_10" ((momentum 10).map optCell)
  let volume ← reqNumCol d13 "volume"
  let vsma := rollMean 20 volume
  let d14 := dfSetCol d13 "volume_sma" (vsma.map optCell)
  let d15 := dfSetCol d14 "volume_ratio"
    ((List.zipWith optDiv (volume.map some) vsma).map optCell)
  Except.ok d15

/-- `DataProcessor.clean_public_data`: drop missing rows, keep rows with
positive population, derive scaled/log population and the four fixed
size buckets (`pd.cut` with right-closed bins). -/
def clean_public_data (logQ : ℚ → ℚ) (df : Df) : Except String Df :=
  if dfEmpty df then Except.ok df else do
  let d0 := dropna df
  let pop ← reqNumCol d0 "population"
  let d1 := dfMask d0 (pop.map (fun q => decide (0 < q)))
  let pop1 ← reqNumCol d1 "population"
  let d2 := dfSetCol d1 "population_millions"
    ((pop1.map (fun q => q / 1000000)).map Cell.num)
  let d3 := dfSetCol d2 "log_population" ((pop1.map logQ).map Cell.num)
  let cat := pop1.map (fun q =>
    if q ≤ 10000000 then Cell.str "Small"
    else if q ≤ 50000000 then Cell.str "Medium"
    else if q ≤ 100000000 then Cell.str "Large"
    else Cell.str "Very Large")
  Except.ok (dfSetCol d3 "population_category" cat)

/-- `series.isin(vals).astype(int)` on one cell against numeric values. -/
def isinNum (vals : List ℚ) (c : Cell) : Cell :=
  match c with
  | Cell.num q => if q ∈ vals then Cell.num 1 else Cell.num 0
  | _ => Cell.num 0

/-- `pd.cut` of a temperature on the fixed `create_features` breakpoints
(right-closed bins). -/
def tempCategory (c : Cell) : Except String Cell :=
  match c with
  | Cell.na => Except.ok Cell.na
  | Cell.num q =>
    Except.ok (if q ≤ 0 then Cell.str "Freezing"
      else if q ≤ 10 then Cell.str "Cold"
      else if q ≤ 20 then Cell.str "Mild"
      else if q ≤ 30 then Cell.str "Warm"
      else Cell.str "Hot")
  | _ => Except.error "TypeError: non-numeric column"

/-- `DataProcessor.create_features`: the per-domain feature-creation step
run after cleaning (calendar features, lags, price ratios, seasonal
flags).  Unknown domain names return the frame unchanged. -/
def create_features (df : Df) (data_type : String) : Except String Df :=
  if data_type = "covid" then do
    let dts ← reqDtCol df "date"
    let d1 := dfSetCol df "day_of_year"
      (dts.map (fun t => Cell.num ((dayOfYear t : Int) : ℚ)))
    let d2 := dfSetCol d1 "week_of_year"
      (dts.map (fun t => Cell.num ((isoWeek t : Int) : ℚ)))
    let d3 := dfSetCol d2 "month" (dts.map (fun t => Cell.num ((t.month : Int) : ℚ)))
    let cases ← reqCol d3 "cases"
    let d4 := dfSetCol d3 "cases_lag_1" (shiftPos 1 cases)
    let d5 := dfSetCol d4 "cases_lag_7" (shiftPos 7 cases)
    let deaths ← reqCol d5 "deaths"
    Except.ok (dfSetCol d5 "deaths_lag_1" (shiftPos 1 deaths))
  else if data_type = "stock" then do
    let close ← reqNumCol df "close"
    let opens ← reqNumCol df "open"
    let priceChange := List.zipWith (fun c o => c - o) close opens
    let d1 := dfSetCol df "price_change" (priceChange.map Cell.num)
    let d2 := dfSetCol d1 "price_change_pct"
      ((List.zipWith (fun pc o => optDiv (some pc) (some o)) priceChange opens).map optCell)
    let high ← reqNumCol d2 "high"
    let low ← reqNumCol d2 "low"
    let d3 := dfSetCol d2 "high_low_ratio"
      ((List.zipWith (fun h l => optDiv (some h) (some l)) high low).map optCell)
    let d4 := dfSetCol d3 "close_open_ratio"
      ((List.zipWith (fun c o => optDiv (some c) (some o)) close opens).map optCell)
    let dts ← reqDtCol d4 "date"
    let d5 := dfSetCol d4 "day_of_week"
      (dts.map (fun t => Cell.num ((dayOfWeek t : Int) : ℚ)))
    let d6 := dfSetCol d5 "month" (dts.map (fun t => Cell.num ((t.month : Int) : ℚ)))
    Except.ok (dfSetCol d6 "quarter"
      (dts.map (fun t => Cell.num ((quarterOf t : Int) : ℚ))))
  else if data_type = "weather" then do
    let months ← reqCol df "month"
    let d1 := dfSetCol df "is_summer" (months.map (isinNum [6, 7, 8]))
    let d2 := dfSetCol d1 "is_winter" (months.map (isinNum [12, 1, 2]))
    let dows ← reqCol d2 "day_of_week"
    let d3 := dfSetCol d2 "is_weekend" (dows.map (isinNum [5, 6]))
    let temps ← reqCol d3 "temperature"
    let cats ← temps.mapM tempCategory
    Except.ok (dfSetCol d3 "temp_category" cats)
  else Except.ok df

/-- One iteration of the `process_all_data` loop: empty frames and unknown
source names are skipped (`ok none`), known names are cleaned and then
featurized.  There is no per-source exception handler: an error is
returned as-is to the caller. -/
def processOne (sqrtQ logQ : ℚ → ℚ) (st : ProcState) (name : String) (df : Df) :
    ProcState × Except String (Option Df) :=
  if dfEmpty df then (st, Except.ok none)
  else if name = "covid" then
    (st, ((clean_covid_data df).bind (fun d => create_features d "covid")).map some)
  else if name = "weather" then
    let p := clean_weather_data st df
    (p.1, (p.2.bind (fun d => create_features d "weather")).map some)
  else if name = "stock" then
    (st, ((clean_stock_data sqrtQ df).bind (fun d => create_features d "stock")).map some)
  else if name = "public" then
    (st, ((clean_public_data logQ df).bind (fun d => create_features d "public")).map some)
  else (st, Except.ok none)

/-- The `process_all_data` loop over the collected sources, in order.  An
exception raised while processing one source propagates immediately: the
remaining sources are never examined. -/
def processGo (sqrtQ logQ : ℚ → ℚ) (st : ProcState) :
    List (String × Df) → Except String (List (String × Df))
  | [] => Except.ok []
  | (name, df) :: rest =>
    let p := processOne sqrtQ logQ st name df
    match p.2 with
    | Except.error e => Except.error e
    | Except.ok none => processGo sqrtQ logQ p.1 rest
    | Except.ok (some out) =>
      (processGo sqrtQ logQ p.1 rest).map (fun tail => (name, out) :: tail)

/-- `DataProcessor.process_all_data`, as `run_full_pipeline` calls it: the
processor starts with empty mutable state. -/
def process_all_data (sqrtQ logQ : ℚ → ℚ) (sources : List (String × Df)) :
    Except String (List (String × Df)) :=
  processGo sqrtQ logQ [] sources

/-- A fitted estimator as the source observes it: a prediction map plus
the optional `feature_importances_` attribute (the `hasattr` check becomes
a match on the option). -/
structure Model where
  predict : List (List Cell) → List Cell
  featureImportances : Option (List ℚ)

/-- Regression candidate metrics (`mse`, `r2`, `rmse`). -/
structure Metrics where
  mse : ℚ
  r2 : ℚ
  rmse : ℚ
deriving DecidableEq

/-- One precision/recall/F1 row of a classification report. -/
structure PRF where
  prec : ℚ
  rcl : ℚ
  f1 : ℚ
deriving DecidableEq

/-- `classification_report(..., output_dict=True)`: per-class rows plus
the macro-average row (the weighted-average and accuracy rows the claims
never read are omitted). -/
structure CReport where
  perClass : List (String × PRF)
  avgRow : PRF
deriving DecidableEq

/-- Classification candidate metrics (`accuracy` plus the report). -/
structure CMetrics where
  accuracy : ℚ
  report : CReport
deriving DecidableEq

/-- A candidate's metrics dict: regression or classification shaped. -/
inductive MetricEntry where
  | reg (m : Metrics)
  | cls (m : CMetrics)
deriving DecidableEq

/-- One `model_metadata` entry. -/
structure ModelMeta where
  features : List String
  bestModel : String
  performance : List (String × MetricEntry)
  trainedDate : String

/-- The mutable state of `MLModels`: the three dict attributes. -/
structure MLState where
  models : List (String × Model)
  modelMetadata : List (String × ModelMeta)
  featureImportance : List (String × List (String × ℚ))

/-- The value a domain training function hands back: a raised exception,
the empty dict (insufficient data/features or no viable candidate), or the
per-candidate results dict. -/
inductive TrainResult where
  | raised (msg : String)
  | empty
  | results (perf : List (String × MetricEntry))

/-- One candidate estimator family: given the training split and the test
matrix it either fails (the caught per-candidate exception) or produces
the fitted model and its test-set predictions.  Every sklearn/xgboost
estimator in the source is constructed with a fixed `random_state`, so a
candidate is a fixed deterministic function. -/
abbrev CandImpl : Type :=
  List (List Cell) → List Cell → List (List Cell) → Option (Model × List Cell)

/-- `train_test_split(X, y, test_size=0.2, random_state=42)`: a fixed
deterministic function of its inputs (the seed is a constant), returning
`(X_train, X_test, y_train, y_test)`. -/
abbrev SplitFn : Type :=
  List (List Cell) → List Cell →
    List (List Cell) × List (List Cell) × List Cell × List Cell

/-- `df[cols]` flattened to a row-major matrix for an estimator. -/
def rowsMatrix (df : Df) (colsList : List String) : List (List Cell) :=
  (List.range (dfNrows df)).map (fun i =>
    colsList.map (fun c => ((dfCol df c).getD []).getD i Cell.na))

/-- `mean_squared_error`. -/
def mseQ (yTrue yPred : List ℚ) : ℚ :=
  (List.zipWith (fun a b => (a - b) ^ 2) yTrue yPred).sum / yTrue.length

/-- `r2_score`, with sklearn's constant-target convention (`1` on a
perfect fit of a constant target, else `0`). -/
def r2Q (yTrue yPred : List ℚ) : ℚ :=
  let m := meanQ yTrue
  let ssRes := (List.zipWith (fun a b => (a - b) ^ 2) yTrue yPred).sum
  let ssTot := (yTrue.map (fun a => (a - m) ^ 2)).sum
  if ssTot = 0 then (if ssRes = 0 then 1 else 0) else 1 - ssRes / ssTot

/-- The selection step shared by every trainer's loop:
`if score > best_score: best_score, best_model = score, candidate`, with
`best_score` initialised to `-inf` (so the first surviving candidate is
always taken, and a tie never displaces the incumbent). -/
def pickBetter {α : Type} (acc : Option (α × ℚ)) (c : α × ℚ) : Option (α × ℚ) :=
  match acc with
  | none => some c
  | some b => if b.2 < c.2 then some c else some b

/-- Python `max(values, key=key)`: the first maximal element. -/
def maxByQ {α : Type} (key : α → ℚ) : List α → Option α
  | [] => none
  | x :: rest => some (rest.foldl (fun b y => if key b < key y then y else b) x)

/-- The `best_model` name reconstruction of the metadata write:
`list(results.keys())[list(results.values()).index(max(values, key=r2))]`. -/
def metaBestNameR (results : List (String × Metrics)) : String :=
  match maxByQ (fun m => m.r2) (results.map Prod.snd) with
  | none => ""
  | some m => (results.map Prod.fst).getD ((results.map Prod.snd).indexOf m) ""

/-- Same reconstruction for the classification trainer (key `accuracy`). -/
def metaBestNameC (results : List (String × CMetrics)) : String :=
  match maxByQ (fun m => m.accuracy) (results.map Prod.snd) with
  | none => ""
  | some m => (results.map Prod.fst).getD ((results.map Prod.snd).indexOf m) ""

/-- Fit and evaluate one regression candidate inside the per-candidate
`try`: any failure (of the fit or of the metric computation) excludes the
candidate. -/
def evalCandR (sqrtQ : ℚ → ℚ) (impl : CandImpl) (Xtr : List (List Cell))
    (ytr : List Cell) (Xte : List (List Cell)) (yte : List Cell) :
    Option (Model × Metrics) :=
  match impl Xtr ytr Xte with
  | none => none
  | some (m, ypredCells) =>
    match cellsToNums yte, cellsToNums ypredCells with
    | Except.ok y, Except.ok yp =>
      some (m, Metrics.mk (mseQ y yp) (r2Q y yp) (sqrtQ (mseQ y yp)))
    | _, _ => none

/-- The feature-column table of the COVID forecasting trainer. -/
def covidFeatureCols : List String :=
  ["cases", "deaths", "recovered", "new_cases", "new_deaths",
   "case_fatality_rate", "recovery_rate", "cases_7d_avg",
   "deaths_7d_avg", "cases_growth_rate", "deaths_growth_rate",
   "day_of_year", "week_of_year", "month"]

/-- Outcome of the COVID trainer before the state write. -/
inductive CovidOutcome where
  | empty
  | raised (msg : String)
  | success (feats : List String) (results : List (String × Metrics)) (best : Model)

/-- The pure computation of `train_covid_forecasting_model`: row/feature
floors, one-sample-ahead target, dropna, fixed split, candidate loop with
per-candidate failure isolation, best-by-`r2` selection. -/
def train_covid_core (split : SplitFn) (cands : List (String × CandImpl))
    (sqrtQ : ℚ → ℚ) (df : Df) : CovidOutcome :=
  if dfEmpty df ∨ dfNrows df < 10 then CovidOutcome.empty else
  let feats := covidFeatureCols.filter (fun c => (dfCol df c).isSome)
  if feats.length < 3 then CovidOutcome.empty else
  match dfCol df "cases" with
  | none => CovidOutcome.raised "KeyError: cases"
  | some casesCells =>
    let dfm := dropna (dfSetCol df "target_cases" (shiftNeg1 casesCells))
    if dfNrows dfm < 10 then CovidOutcome.empty else
    let X := rowsMatrix dfm feats
    let y := (dfCol dfm "target_cases").getD []
    let s := split X y
    let folded := cands.foldl (fun acc cand =>
      match evalCandR sqrtQ cand.2 s.1 s.2.2.1 s.2.1 s.2.2.2 with
      | none => acc
      | some (m, met) =>
        (acc.1 ++ [(cand.1, met)], pickBetter acc.2 (m, met.r2)))
      (([] : List (String × Metrics)), (none : Option (Model × ℚ)))
    match folded.2 with
    | none => CovidOutcome.empty
    | some (bm, _) => CovidOutcome.success feats folded.1 bm

/-- `MLModels.train_covid_forecasting_model`: runs the pure core and, only
on success, registers the winner under `covid_forecast` (model, metadata
with the reconstructed best name and the training date, and the
feature-importance map when the winner exposes one). -/
def train_covid_forecasting_model (split : SplitFn)
    (cands : List (String × CandImpl)) (sqrtQ : ℚ → ℚ) (now : String)
    (st : MLState) (df : Df) : MLState × TrainResult :=
  match train_covid_core split cands sqrtQ df with
  | CovidOutcome.empty => (st, TrainResult.empty)
  | CovidOutcome.raised e => (st, TrainResult.raised e)
  | CovidOutcome.success feats results bm =>
    let perf := results.map (fun p => (p.1, MetricEntry.reg p.2))
    let st2 : MLState :=
      { models := updateAssoc st.models "covid_forecast" bm,
        modelMetadata := updateAssoc st.modelMetadata "covid_forecast"
          (ModelMeta.mk feats (metaBestNameR results) perf now),
        featureImportance :=
          match bm.featureImportances with
          | some imps =>
            updateAssoc st.featureImportance "covid_forecast" (feats.zip imps)
          | none => st.featureImportance }
    (st2, TrainResult.results perf)

/-- `accuracy_score` on label lists. -/
def accuracyS (yTrue yPred : List String) : ℚ :=
  (List.zipWith (fun a b => if a = b then (1 : ℚ) else 0) yTrue yPred).sum /
    yTrue.length

/-- Precision/recall/F1 of one class, with sklearn's `zero_division=0`
convention. -/
def prfFor (yTrue yPred : List String) (c : String) : PRF :=
  let tp : ℚ := ((yTrue.zip yPred).filter
    (fun p => decide (p.1 = c) && decide (p.2 = c))).length
  let predP : ℚ := (yPred.filter (fun x => decide (x = c))).length
  let actP : ℚ := (yTrue.filter (fun x => decide (x = c))).length
  let p := if predP = 0 then 0 else tp / predP
  let r := if actP = 0 then 0 else tp / actP
  PRF.mk p r (if p + r = 0 then 0 else 2 * p * r / (p + r))

/-- `classification_report(..., output_dict=True)`: rows for the sorted
set of observed labels, plus the macro-average row. -/
def classificationReport (yTrue yPred : List String) : CReport :=
  let labels := dedupSortS (yTrue ++ yPred)
  let per := labels.map (fun c => (c, prfFor yTrue yPred c))
  let n : ℚ := labels.length
  CReport.mk per (PRF.mk ((per.map (fun p => p.2.prec)).sum / n)
    ((per.map (fun p => p.2.rcl)).sum / n)
    ((per.map (fun p => p.2.f1)).sum / n))

/-- Fit and evaluate one classification candidate inside the
per-candidate `try`. -/
def evalCandC (impl : CandImpl) (Xtr : List (List Cell)) (ytr : List Cell)
    (Xte : List (List Cell)) (yte : List Cell) : Option (Model × CMetrics) :=
  match impl Xtr ytr Xte with
  | none => none
  | some (m, ypredCells) =>
    match cellsToStrs yte, cellsToStrs ypredCells with
    | Except.ok y, Except.ok yp =>
      some (m, CMetrics.mk (accuracyS y yp) (classificationReport y yp))
    | _, _ => none

/-- The feature-column table of the weather classification trainer. -/
def weatherFeatureCols : List String :=
  ["temperature", "humidity", "pressure", "wind_speed",
   "temp_fahrenheit", "hour", "day_of_week", "month",
   "is_summer", "is_winter", "is_weekend"]

/-- `pd.cut` of a temperature on the weather-target breakpoints
(right-closed bins `(-inf,0]`, `(0,15]`, `(15,25]`, `(25,inf)`). -/
def weatherCategory (c : Cell) : Except String Cell :=
  match c with
  | Cell.na => Except.ok Cell.na
  | Cell.num q =>
    Except.ok (if q ≤ 0 then Cell.str "Cold"
      else if q ≤ 15 then Cell.str "Cool"
      else if q ≤ 25 then Cell.str "Warm"
      else Cell.str "Hot")
  | _ => Except.error "TypeError: non-numeric column"

/-- Outcome of the weather trainer before the state write. -/
inductive WeatherOutcome where
  | empty
  | raised (msg : String)
  | success (feats : List String) (results : List (String × CMetrics)) (best : Model)

/-- The pure computation of `train_weather_classification_model`:
row/feature floors, the engineered temperature-bucket target, dropna,
fixed stratified split, candidate loop, best-by-accuracy selection. -/
def train_weather_core (split : SplitFn) (cands : List (String × CandImpl))
    (df : Df) : WeatherOutcome :=
  if dfEmpty df ∨ dfNrows df < 10 then WeatherOutcome.empty else
  let feats := weatherFeatureCols.filter (fun c => (dfCol df c).isSome)
  if feats.length < 3 then WeatherOutcome.empty else
  match dfCol df "temperature" with
  | none => WeatherOutcome.raised "KeyError: temperature"
  | some tempCells =>
    match tempCells.mapM weatherCategory with
    | Except.error e => WeatherOutcome.raised e
    | Except.ok wcat =>
      let dfm := dropna (dfSetCol df "weather_category" wcat)
      if dfNrows dfm < 10 then WeatherOutcome.empty else
      let X := rowsMatrix dfm feats
      let y := (dfCol dfm "weather_category").getD []
      let s := split X y
      let folded := cands.foldl (fun acc cand =>
        match evalCandC cand.2 s.1 s.2.2.1 s.2.1 s.2.2.2 with
        | none => acc
        | some (m, met) =>
          (acc.1 ++ [(cand.1, met)], pickBetter acc.2 (m, met.accuracy)))
        (([] : List (String × CMetrics)), (none : Option (Model × ℚ)))
      match folded.2 with
      | none => WeatherOutcome.empty
      | some (bm, _) => WeatherOutcome.success feats folded.1 bm

/-- `MLModels.train_weather_classification_model`: runs the pure core and,
only on success, registers the winner under `weather_classification`. -/
def train_weather_classification_model (split : SplitFn)
    (cands : List (String × CandImpl)) (now : String) (st : MLState)
    (df : Df) : MLState × TrainResult :=
  match train_weather_core split cands df with
  | WeatherOutcome.empty => (st, TrainResult.empty)
  | WeatherOutcome.raised e => (st, TrainResult.raised e)
  | WeatherOutcome.success feats results bm =>
    let perf := results.map (fun p => (p.1, MetricEntry.cls p.2))
    let st2 : MLState :=
      { models := updateAssoc st.models "weather_classification" bm,
        modelMetadata := updateAssoc st.modelMetadata "weather_classification"
          (ModelMeta.mk feats (metaBestNameC results) perf now),
        featureImportance :=
          match bm.featureImportances with
          | some imps =>
            updateAssoc st.featureImportance "weather_classification" (feats.zip imps)
          | none => st.featureImportance }
    (st2, TrainResult.results perf)

/-- The present numeric values of a column (what `Series.mean` averages,
skipping `NaN`). -/
def presentNums (cells : List Cell) : List ℚ :=
  cells.filterMap (fun c => match c with
    | Cell.num q => some q
    | _ => none)

/-- `X[col].fillna(X[col].mean())` for one column: missing entries are
replaced by the mean of the values supplied in this very frame; a column
with no present value keeps its missing entries (`mean` of nothing is
`NaN` and `fillna(NaN)` fills nothing). -/
def fillColMean (cells : List Cell) : Except String (List Cell) :=
  if cells.any (fun c => match c with
      | Cell.str _ => true
      | Cell.dt _ => true
      | _ => false) then
    Except.error "TypeError: non-numeric column"
  else
    let nums := presentNums cells
    let m : Option ℚ := if nums.isEmpty then none else some (meanQ nums)
    Except.ok (cells.map (fun c => match c with
      | Cell.na => optCell m
      | c => c))

/-- `X = X.fillna(X.mean())`: the columnwise mean-fill of the supplied
prediction frame. -/
def fillnaColMean (df : Df) : Except String Df :=
  match df with
  | [] => Except.ok []
  | (n, cells) :: rest => do
    let c2 ← fillColMean cells
    let tail ← fillnaColMean rest
    Except.ok ((n, c2) :: tail)

/-- `df[names]`: column subset in the given order. -/
def dfSelect (df : Df) (names : List String) : Df :=
  names.map (fun n => (n, (dfCol df n).getD []))

/-- `MLModels.make_prediction`: unknown names raise the dedicated
`ValueError`; otherwise the trained feature list is intersected with the
supplied columns (the missing set is logged, not modelled), missing values
are filled with the supplied frame's own column means, and the stored
estimator is applied. -/
def make_prediction (st : MLState) (model_name : String) (features : Df) :
    Except String (List Cell) :=
  match st.models.lookup model_name with
  | none => Except.error ("ValueError: Model " ++ model_name ++ " not found")
  | some model =>
    match st.modelMetadata.lookup model_name with
    | none => Except.error ("KeyError: " ++ model_name)
    | some meta =>
      let availableFeatures :=
        meta.features.filter (fun c => (dfCol features c).isSome)
      let X := dfSelect features availableFeatures
      (fillnaColMean X).map
        (fun X2 => model.predict (rowsMatrix X2 availableFeatures))

/-- The response of the `/predict` endpoint. -/
inductive PredictResponse where
  | success (preds : List Cell)
  | httpError (status : Nat) (detail : String)

/-- The `/predict` endpoint of `backend/main.py`: membership in the
registry is checked *before* the generic `try`, so an unregistered name is
answered with the dedicated 404 and can never reach the generic 500
handler. -/
def predictEndpoint (st : MLState) (model_name : String) (features : Df) :
    PredictResponse :=
  if (st.models.lookup model_name).isNone then
    PredictResponse.httpError 404 ("Model '" ++ model_name ++
      "' not found. Available models: " ++
      String.intercalate ", " (st.models.map Prod.fst))
  else
    match make_prediction st model_name features with
    | Except.ok preds => PredictResponse.success preds
    | Except.error e => PredictResponse.httpError 500 ("Prediction error: " ++ e)

/-- The run record of one pipeline invocation (the fields the claims
read); `α` is the shape of the `models_trained` map. -/
structure PipelineResults (α : Type) where
  status : String
  errors : List String
  modelsTrained : α

/-- `ETLPipeline.run_full_pipeline`: collection is external (the collected
frames are the input), and the model-training stage is the parameter
`trainAll` (it calls into sklearn and may itself raise).  There is exactly
one exception handler, around the whole pipeline: any escaped exception
sets the run status to `failed` and records the message; nothing restarts
the remaining sources.  Persistence and insight generation are I/O steps
after training and are not modelled. -/
def run_full_pipeline {α : Type} (sqrtQ logQ : ℚ → ℚ)
    (trainAll : List (String × Df) → Except String α) (noModels : α)
    (raw : List (String × Df)) : PipelineResults α :=
  match (process_all_data sqrtQ logQ raw).bind trainAll with
  | Except.ok tr => PipelineResults.mk "completed" [] tr
  | Except.error e => PipelineResults.mk "failed" [e] noModels

/-! Concrete instances for the per-claim counterexamples and witnesses. -/

/-- Identity instantiation of a float-function parameter. -/
def qId : ℚ → ℚ := fun q => q

/-- A nonempty counts frame lacking the `cases` column. -/
def dfNoCasesC1 : Df := [("deaths", [Cell.num 1])]

/-- A two-row, fully-populated market frame. -/
def stockGoodC1 : Df :=
  [("date", [Cell.dt (Timestamp.mk 2023 1 2 0), Cell.dt (Timestamp.mk 2023 1 3 0)]),
   ("open", [Cell.num 10, Cell.num 11]),
   ("high", [Cell.num 12, Cell.num 13]),
   ("low", [Cell.num 9, Cell.num 10]),
   ("close", [Cell.num 11, Cell.num 12]),
   ("volume", [Cell.num 1000, Cell.num 1100]),
   ("daily_return", [Cell.num (1/100), Cell.num (2/100)])]

/-- A training stage that succeeds on whatever it is given, returning the
processed source names. -/
def trainAllC1 : List (String × Df) → Except String (List String) :=
  fun pd => Except.ok (pd.map Prod.fst)

/-- Ten weather rows whose temperatures fall in the `Cold`/`Hot` buckets
(five each). -/
def wdfC2 : Df :=
  [("temperature", ([-1, -2, -3, 30, 31, 32, -4, -5, 33, 34] : List ℚ).map Cell.num),
   ("humidity", (List.range 10).map (fun i => Cell.num (50 + i))),
   ("pressure", (List.range 10).map (fun _ => Cell.num 1013))]

/-- A deterministic split instantiation: first six rows train, last four
test. -/
def splitC2 : SplitFn := fun X y => (X.take 6, X.drop 6, y.take 6, y.drop 6)

/-- An estimator object whose observable behaviour the claim never
reads. -/
def dummyModelC2 : Model := Model.mk (fun _ => []) none

/-- A candidate predicting `Cold` everywhere: held-out accuracy 1/2,
macro F1 1/3. -/
def candRFC2 : CandImpl := fun _ _ _ =>
  some (dummyModelC2, [Cell.str "Cold", Cell.str "Cold", Cell.str "Cold", Cell.str "Cold"])

/-- A candidate with the same held-out accuracy 1/2 but macro F1 1/2. -/
def candLRC2 : CandImpl := fun _ _ _ =>
  some (dummyModelC2, [Cell.str "Cold", Cell.str "Hot", Cell.str "Cold", Cell.str "Hot"])

/-- A candidate whose fit fails (excluded from selection). -/
def candSVCC2 : CandImpl := fun _ _ _ => none

/-- The candidate table in the trainer's fixed iteration order. -/
def wcandsC2 : List (String × CandImpl) :=
  [("random_forest", candRFC2), ("logistic_regression", candLRC2), ("svc", candSVCC2)]

/-- The concrete weather training run of the C2 counterexample. -/
def wrunC2 : MLState × TrainResult :=
  train_weather_classification_model splitC2 wcandsC2 "d" (MLState.mk [] [] []) wdfC2

/-- Project a stored classification accuracy out of a results dict. -/
def resultAccuracy (r : TrainResult) (name : String) : Option ℚ :=
  match r with
  | TrainResult.results perf =>
    match perf.lookup name with
    | some (MetricEntry.cls m) => some m.accuracy
    | _ => none
  | _ => none

/-- Project a stored macro-averaged F1 out of a results dict. -/
def resultMacF1 (r : TrainResult) (name : String) : Option ℚ :=
  match r with
  | TrainResult.results perf =>
    match perf.lookup name with
    | some (MetricEntry.cls m) => some m.report.avgRow.f1
    | _ => none
  | _ => none

/-- A registry state with one model whose predictions reveal the filled
first feature value of every supplied row. -/
def stC3 : MLState :=
  MLState.mk
    [("covid_forecast", Model.mk (fun rows => rows.map (fun r => r.getD 0 Cell.na)) none)]
    [("covid_forecast", ModelMeta.mk ["f"] "random_forest" [] "d")]
    []

/-- Two prediction frames for the same registry state, differing only in
the row *accompanying* the missing value. -/
def exF1C3 : Df := [("f", [Cell.na, Cell.num 2])]

/-- See `exF1C3`. -/
def exF2C3 : Df := [("f", [Cell.na, Cell.num 4])]

/-- A one-row counts frame in which deaths exceed cases. -/
def exC4 : Df :=
  [("cases", [Cell.num 100]), ("deaths", [Cell.num 200]), ("recovered", [Cell.num 0])]

/-- The cleaned output of `exC4`. -/
def outC4 : Df :=
  [("cases", [Cell.num 100]),
   ("deaths", [Cell.num 200]),
   ("recovered", [Cell.num 0]),
   ("case_fatality_rate", [Cell.num 200]),
   ("recovery_rate", [Cell.num 0]),
   ("cases_7d_avg", [Cell.na]),
   ("deaths_7d_avg", [Cell.na]),
   ("cases_growth_rate", [Cell.na]),
   ("deaths_growth_rate", [Cell.na])]

/-- A nonempty counts frame with no `cases` column. -/
def exCovC5 : Df := [("deaths", [Cell.num 7])]

/-- A nonempty market frame with no `daily_return` column. -/
def exStkC5 : Df := [("close", [Cell.num 5])]

/-- A fully-populated counts frame (only guarded-rule columns absent). -/
def okCovC5 : Df :=
  [("cases", [Cell.num 10, Cell.num 20]),
   ("deaths", [Cell.num 1, Cell.na]),
   ("recovered", [Cell.num 2, Cell.num 3])]

/-- The empty registry. -/
def stC6 : MLState := MLState.mk [] [] []

/-- 25 market rows, one of which carries an 80% single-sample return. -/
def exC8 : Df :=
  [("close", (List.range 25).map (fun i => Cell.num (10 + i))),
   ("volume", (List.range 25).map (fun _ => Cell.num 1000)),
   ("daily_return",
     ((List.range 25).map (fun i => if i = 12 then (4 : ℚ)/5 else 1/100)).map Cell.num)]

/-- A one-row market frame for the C8 witness. -/
def df1C8 : Df :=
  [("daily_return", [Cell.num (1/100)]), ("close", [Cell.num 1]), ("volume", [Cell.num 1])]

/-- The cleaned output of `df1C8`. -/
def out1C8 : Df :=
  [("daily_return", [Cell.num (1/100)]),
   ("close", [Cell.num 1]),
   ("volume", [Cell.num 1]),
   ("sma_5", [Cell.na]),
   ("sma_20", [Cell.na]),
   ("ema_12", [Cell.num 1]),
   ("ema_26", [Cell.num 1]),
   ("macd", [Cell.num 0]),
   ("macd_signal", [Cell.num 0]),
   ("rsi", [Cell.na]),
   ("bb_middle", [Cell.na]),
   ("bb_upper", [Cell.na]),
   ("bb_lower", [Cell.na]),
   ("momentum_5", [Cell.na]),
   ("momentum_10", [Cell.na]),
   ("volume_sma", [Cell.na]),
   ("volume_ratio", [Cell.na])]

/-- A registry state with existing content, for the C10 witness. -/
def stC10 : MLState :=
  MLState.mk [] [("weather_classification", ModelMeta.mk [] "svc" [] "d")] []

/-- A one-row counts frame: below the ten-row training floor. -/
def dfC10 : Df := [("cases", [Cell.num 1])]

/-- A split instantiation for the C10 witness. -/
def splitC10 : SplitFn := fun X y => (X, [], y, [])

/-- Check that a column is present with only numeric-or-missing cells (the
shape under which a cleaning rule on it cannot raise). -/
def numOrNaColB (df : Df) (name : String) : Bool :=
  match dfCol df name with
  | none => false
  | some cells => cells.all (fun c => match c with
    | Cell.na => true
    | Cell.num _ => true
    | _ => false)

/-- Check that a column, when present, has only numeric-or-missing cells
(the shape under which a guarded clip rule on it cannot raise); an absent
column passes vacuously (its rule is skipped). -/
def numOrNaIfPresentB (df : Df) (name : String) : Bool :=
  match dfCol df name with
  | none => true
  | some cells => cells.all (fun c => match c with
    | Cell.na => true
    | Cell.num _ => true
    | _ => false)

/-- A fully-populated market frame for the C5 witness. -/
def okStkC5 : Df :=
  [("daily_return", [Cell.num 0]), ("close", [Cell.num 1]), ("volume", [Cell.num 2])]

/-- A counts frame with the required columns numeric but a string-valued
`new_cases` column: the clip loop raises on it. -/
def exClipC5 : Df :=
  [("cases", [Cell.num 1]), ("deaths", [Cell.num 1]),
   ("recovered", [Cell.num 1]), ("new_cases", [Cell.str "x"])]

/-! Helper lemmas about the frame operations. -/

theorem bind_ok_eq {α β : Type} (a : α) (f : α → Except String β) :
    (Except.ok a >>= f) = f a := rfl

theorem bind_error_eq {α β : Type} (e : String) (f : α → Except String β) :
    ((Except.error e : Except String α) >>= f) = Except.error e := rfl

theorem dfCol_setCol_self (df : Df) (name : String) (cells : List Cell) :
    dfCol (dfSetCol df name cells) name = some cells := by
  induction df with
  | nil => simp [dfSetCol, dfCol]
  | cons p rest ih =>
    obtain ⟨n, c⟩ := p
    by_cases h : n = name
    · simp [dfSetCol, dfCol, h]
    · simp [dfSetCol, dfCol, h, ih]

theorem dfCol_setCol_ne (df : Df) (name other : String) (cells : List Cell)
    (h : other ≠ name) :
    dfCol (dfSetCol df name cells) other = dfCol df other := by
  induction df with
  | nil => simp [dfSetCol, dfCol, Ne.symm h]
  | cons p rest ih =>
    obtain ⟨n, c⟩ := p
    by_cases hn : n = name
    · subst hn
      simp [dfSetCol, dfCol, Ne.symm h]
    · simp [dfSetCol, dfCol, hn, ih]

theorem dfCol_dfMask (df : Df) (mask : List Bool) (name : String) :
    dfCol (dfMask df mask) name = (dfCol df name).map (maskFilter mask) := by
  induction df with
  | nil => simp [dfMask, dfCol]
  | cons p rest ih =>
    obtain ⟨n, c⟩ := p
    by_cases h : n = name
    · simp [dfMask, dfCol, h]
    · simp only [dfMask, List.map_cons, dfCol, h, if_false, if_neg h]
      simpa [dfMask] using ih

theorem dfCol_mem (df : Df) (name : String) (cells : List Cell)
    (h : dfCol df name = some cells) : (name, cells) ∈ df := by
  induction df with
  | nil => simp [dfCol] at h
  | cons p rest ih =>
    obtain ⟨n, c⟩ := p
    by_cases hn : n = name
    · subst hn
      simp [dfCol] at h
      simp [h]
    · simp [dfCol, hn] at h
      exact List.mem_cons_of_mem _ (ih h)

theorem dfCol_fillna0 (df : Df) (name : String) :
    dfCol (fillna0 df) name = (dfCol df name).map (List.map fill0Cell) := by
  induction df with
  | nil => simp [fillna0, dfCol]
  | cons p rest ih =>
    obtain ⟨n, c⟩ := p
    by_cases h : n = name
    · simp [fillna0, dfCol, h]
    · simp only [fillna0, List.map_cons, dfCol, if_neg h]
      simpa [fillna0] using ih

theorem pure_eq_ok {α : Type} (a : α) : (pure a : Except String α) = Except.ok a := rfl

theorem clipColStep_ok_col (d d' : Df) (n : String)
    (h : clipColStep d n = Except.ok d') (m : String) :
    dfCol d' m =
      if m = n then (dfCol d n).map (List.map clipCell) else dfCol d m := by
  unfold clipColStep at h
  split at h
  next hc =>
    injection h with h'
    subst h'
    by_cases hmn : m = n
    · rw [if_pos hmn, hmn, hc]
      rfl
    · rw [if_neg hmn]
  next cells hc =>
    split at h
    · exact absurd h (by simp)
    · injection h with h'
      subst h'
      by_cases hmn : m = n
      · rw [if_pos hmn, hmn, hc, dfCol_setCol_self]
        rfl
      · rw [if_neg hmn, dfCol_setCol_ne _ _ _ _ hmn]

theorem dfCol_clipCovid (d d1 : Df) (h : clipNumericCovid d = Except.ok d1)
    (n : String) (hn : n ∈ covidClipCols) :
    dfCol d1 n = (dfCol d n).map (List.map clipCell) := by
  unfold clipNumericCovid covidClipCols at h
  simp only [List.foldlM_cons, List.foldlM_nil] at h
  cases h1 : clipColStep d "cases" with
  | error e => rw [h1] at h; simp only [bind_error_eq] at h; exact absurd h (by simp)
  | ok da =>
  rw [h1] at h
  simp only [bind_ok_eq] at h
  cases h2 : clipColStep da "deaths" with
  | error e => rw [h2] at h; simp only [bind_error_eq] at h; exact absurd h (by simp)
  | ok db =>
  rw [h2] at h
  simp only [bind_ok_eq] at h
  cases h3 : clipColStep db "recovered" with
  | error e => rw [h3] at h; simp only [bind_error_eq] at h; exact absurd h (by simp)
  | ok dc =>
  rw [h3] at h
  simp only [bind_ok_eq] at h
  cases h4 : clipColStep dc "new_cases" with
  | error e => rw [h4] at h; simp only [bind_error_eq] at h; exact absurd h (by simp)
  | ok dd =>
  rw [h4] at h
  simp only [bind_ok_eq] at h
  cases h5 : clipColStep dd "new_deaths" with
  | error e => rw [h5] at h; simp only [bind_error_eq] at h; exact absurd h (by simp)
  | ok de =>
  rw [h5] at h
  simp only [bind_ok_eq] at h
  cases h6 : clipColStep de "new_recovered" with
  | error e => rw [h6] at h; simp only [bind_error_eq] at h; exact absurd h (by simp)
  | ok dg =>
  rw [h6] at h
  simp only [bind_ok_eq, pure_eq_ok, Except.ok.injEq] at h
  subst h
  fin_cases hn <;>
    simp +decide [clipColStep_ok_col _ _ _ h1, clipColStep_ok_col _ _ _ h2,
      clipColStep_ok_col _ _ _ h3, clipColStep_ok_col _ _ _ h4,
      clipColStep_ok_col _ _ _ h5, clipColStep_ok_col _ _ _ h6]

theorem clipColStep_ok_of_numOrNa (d : Df) (name : String)
    (h : numOrNaIfPresentB d name = true) :
    ∃ d', clipColStep d name = Except.ok d' := by
  unfold numOrNaIfPresentB at h
  cases hc : dfCol d name with
  | none => exact ⟨d, by unfold clipColStep; rw [hc]⟩
  | some cells =>
    rw [hc] at h
    rw [List.all_eq_true] at h
    cases hany : cells.any (fun c => match c with
        | Cell.str _ => true
        | Cell.dt _ => true
        | _ => false) with
    | true =>
      exfalso
      rw [List.any_eq_true] at hany
      obtain ⟨c, hcm, hp⟩ := hany
      have hb := h c hcm
      cases c with
      | na => simp at hp
      | num q => simp at hp
      | str s3 => simp at hb
      | dt t3 => simp at hb
    | false =>
      refine ⟨dfSetCol d name (cells.map clipCell), ?_⟩
      unfold clipColStep
      rw [hc]
      simp [hany]

theorem clipColStep_preserves_numOrNa (d d' : Df) (n : String)
    (h : clipColStep d n = Except.ok d') (m : String)
    (hm : numOrNaIfPresentB d m = true) : numOrNaIfPresentB d' m = true := by
  unfold numOrNaIfPresentB at hm ⊢
  rw [clipColStep_ok_col d d' n h m]
  by_cases hmn : m = n
  · rw [if_pos hmn]
    subst hmn
    cases hc : dfCol d m with
    | none => simp
    | some cells =>
      rw [hc] at hm
      simp only [Option.map_some']
      rw [List.all_eq_true] at hm ⊢
      intro c hcm
      rw [List.mem_map] at hcm
      obtain ⟨c0, hc0, rfl⟩ := hcm
      have hb := hm c0 hc0
      cases c0 with
      | na => simp [clipCell]
      | num q => simp [clipCell]
      | str s3 => simp at hb
      | dt t3 => simp at hb
  · rw [if_neg hmn]
    exact hm

theorem clipFold_ok (names : List String) : ∀ d : Df,
    (∀ m ∈ names, numOrNaIfPresentB d m = true) →
    ∃ d', List.foldlM clipColStep d names = Except.ok d' := by
  induction names with
  | nil =>
    intro d _
    exact ⟨d, rfl⟩
  | cons a t ih =>
    intro d h
    obtain ⟨da, hda⟩ := clipColStep_ok_of_numOrNa d a (h a (by simp))
    obtain ⟨d', hd'⟩ := ih da (fun m hm =>
      clipColStep_preserves_numOrNa d da a hda m (h m (List.mem_cons_of_mem _ hm)))
    refine ⟨d', ?_⟩
    rw [List.foldlM_cons, hda]
    simp only [bind_ok_eq]
    exact hd'

theorem mem_of_getElem?_eq {α : Type} (l : List α) (i : Nat) (c : α)
    (h : l[i]? = some c) : c ∈ l := by
  rw [List.getElem?_eq_some] at h
  obtain ⟨hi, rfl⟩ := h
  exact List.getElem_mem hi

theorem mem_maskFilter (m : List Bool) (l : List Cell) (c : Cell)
    (h : c ∈ maskFilter m l) :
    ∃ j : Nat, m[j]? = some true ∧ l[j]? = some c := by
  induction m generalizing l with
  | nil => simp [maskFilter] at h
  | cons b m ih =>
    cases l with
    | nil => simp [maskFilter] at h
    | cons x l =>
      cases b with
      | true =>
        rw [show maskFilter (true :: m) (x :: l) = x :: maskFilter m l from rfl] at h
        rcases List.mem_cons.mp h with h1 | h2
        · refine ⟨0, List.getElem?_cons_zero, ?_⟩
          rw [h1]
          exact List.getElem?_cons_zero
        · obtain ⟨j, hj1, hj2⟩ := ih l h2
          refine ⟨j + 1, ?_, ?_⟩
          · rw [List.getElem?_cons_succ]; exact hj1
          · rw [List.getElem?_cons_succ]; exact hj2
      | false =>
        rw [show maskFilter (false :: m) (x :: l) = maskFilter m l from rfl] at h
        obtain ⟨j, hj1, hj2⟩ := ih l h
        refine ⟨j + 1, ?_, ?_⟩
        · rw [List.getElem?_cons_succ]; exact hj1
        · rw [List.getElem?_cons_succ]; exact hj2

theorem cellsToNums_ok_shape (cells : List Cell) (l : List ℚ)
    (h : cellsToNums cells = Except.ok l) : cells = l.map Cell.num := by
  induction cells generalizing l with
  | nil =>
    simp [cellsToNums] at h
    subst h
    simp
  | cons c rest ih =>
    cases c with
    | num q =>
      cases hr : cellsToNums rest with
      | error e => simp [cellsToNums, hr, Except.map] at h
      | ok l' =>
        simp [cellsToNums, hr, Except.map] at h
        subst h
        simp [ih l' hr]
    | na => simp [cellsToNums] at h
    | str s => simp [cellsToNums] at h
    | dt t => simp [cellsToNums] at h

theorem cellsToNums_ok_of_num (cells : List Cell)
    (h : ∀ c ∈ cells, ∃ q, c = Cell.num q) :
    ∃ l, cellsToNums cells = Except.ok l := by
  induction cells with
  | nil => exact ⟨[], rfl⟩
  | cons c rest ih =>
    obtain ⟨q, rfl⟩ := h c (by simp)
    obtain ⟨l, hl⟩ := ih (fun c hc => h c (by simp [hc]))
    exact ⟨q :: l, by simp [cellsToNums, hl, Except.map]⟩

theorem cellsToNums_clip_nonneg (cells : List Cell) (l : List ℚ)
    (h : cellsToNums (cells.map clipCell) = Except.ok l) : ∀ q ∈ l, 0 ≤ q := by
  induction cells generalizing l with
  | nil =>
    simp [cellsToNums] at h
    subst h
    simp
  | cons c rest ih =>
    cases c with
    | num q =>
      cases hr : cellsToNums (rest.map clipCell) with
      | error e => simp [cellsToNums, clipCell, hr, Except.map] at h
      | ok l' =>
        simp [cellsToNums, clipCell, hr, Except.map] at h
        intro x hx
        rw [← h] at hx
        rcases List.mem_cons.mp hx with h1 | h2
        · simp [h1]
        · exact ih l' hr x h2
    | na => simp [cellsToNums, clipCell] at h
    | str s => simp [cellsToNums, clipCell] at h
    | dt t => simp [cellsToNums, clipCell] at h

theorem zipWith_getElem?_some {α β γ : Type} (f : α → β → γ) (as : List α)
    (bs : List β) (i : Nat) (c : γ)
    (h : (List.zipWith f as bs)[i]? = some c) :
    ∃ a b, as[i]? = some a ∧ bs[i]? = some b ∧ c = f a b := by
  induction as generalizing bs i with
  | nil => simp [List.zipWith] at h
  | cons a as ih =>
    cases bs with
    | nil => simp [List.zipWith] at h
    | cons b bs =>
      cases i with
      | zero =>
        simp only [List.zipWith_cons_cons, List.getElem?_cons_zero, Option.some_inj] at h
        exact ⟨a, b, List.getElem?_cons_zero, List.getElem?_cons_zero, h.symm⟩
      | succ j =>
        simp only [List.zipWith_cons_cons, List.getElem?_cons_succ] at h ⊢
        exact ih bs j h

theorem lookup_updateAssoc_self {α : Type} (l : List (String × α)) (k : String)
    (v : α) : (updateAssoc l k v).lookup k = some v := by
  induction l with
  | nil => simp [updateAssoc, List.lookup]
  | cons p rest ih =>
    obtain ⟨n, x⟩ := p
    by_cases h : n = k
    · subst h
      simp [updateAssoc, List.lookup]
    · have hkn : (k == n) = false := by simp [Ne.symm h]
      simp [updateAssoc, List.lookup, h, hkn, ih]

theorem dfEmpty_wf_col_nil (df : Df) (hWf : WfDf df) (he : dfEmpty df = true)
    (name : String) (cells : List Cell) (h : dfCol df name = some cells) :
    cells = [] := by
  have hm := dfCol_mem df name cells h
  have hlen := hWf (name, cells) hm
  cases df with
  | nil => simp at hm
  | cons p rest =>
    obtain ⟨n, c⟩ := p
    simp [dfEmpty, List.isEmpty_iff] at he
    simp [dfNrows, he] at hlen
    exact hlen

theorem clean_weather_data_snd_eq (st st' : ProcState) (df : Df) :
    (clean_weather_data st df).2 = (clean_weather_data st' df).2 := by
  unfold clean_weather_data
  cases clean_weather_body df with
  | error e => rfl
  | ok p =>
    obtain ⟨out, o⟩ := p
    cases o <;> rfl

theorem reqCol_ok_col (df : Df) (name : String) (cells : List Cell)
    (h : reqCol df name = Except.ok cells) : dfCol df name = some cells := by
  unfold reqCol at h
  cases hc : dfCol df name with
  | none => rw [hc] at h; exact absurd h (by simp)
  | some c =>
    rw [hc] at h
    simp at h
    rw [h]

theorem reqNumCol_ok_col (df : Df) (name : String) (l : List ℚ)
    (h : reqNumCol df name = Except.ok l) :
    dfCol df name = some (l.map Cell.num) := by
  unfold reqNumCol at h
  cases hc : dfCol df name with
  | none => rw [hc] at h; exact absurd h (by simp)
  | some cells =>
    rw [hc] at h
    rw [cellsToNums_ok_shape cells l h]

theorem reqNumCol_setCol_ne (df : Df) (name other : String) (v : List Cell)
    (h : other ≠ name) :
    reqNumCol (dfSetCol df name v) other = reqNumCol df other := by
  unfold reqNumCol
  rw [dfCol_setCol_ne _ _ _ _ h]

theorem cellsToNums_map_num (l : List ℚ) :
    cellsToNums (l.map Cell.num) = Except.ok l := by
  induction l with
  | nil => rfl
  | cons q t ih => simp [cellsToNums, ih, Except.map]

theorem reqNumCol_clip_nonneg (d d1 : Df) (hcl : clipNumericCovid d = Except.ok d1)
    (name : String) (hn : name ∈ covidClipCols)
    (l : List ℚ) (h : reqNumCol d1 name = Except.ok l) :
    ∀ q ∈ l, 0 ≤ q := by
  unfold reqNumCol at h
  rw [dfCol_clipCovid d d1 hcl name hn] at h
  cases hc : dfCol d name with
  | none => rw [hc] at h; exact absurd h (by simp)
  | some cells =>
    rw [hc] at h
    simp only [Option.map_some'] at h
    exact cellsToNums_clip_nonneg cells l h

theorem dropna_no_na (df : Df) (name : String) (cells : List Cell)
    (hcol : dfCol df name = some cells) (c : Cell)
    (hc : c ∈ maskFilter (dropnaMask df) cells) : c ≠ Cell.na := by
  obtain ⟨j, hm, hcell⟩ := mem_maskFilter _ _ _ hc
  unfold dropnaMask at hm
  rw [List.getElem?_map] at hm
  cases hr : (List.range (dfNrows df))[j]? with
  | none => rw [hr] at hm; exact absurd hm (by simp)
  | some jj =>
    rw [hr] at hm
    simp only [Option.map_some', Option.some_inj] at hm
    obtain ⟨hlt, heq⟩ := List.getElem?_eq_some.mp hr
    rw [List.getElem_range] at heq
    subst heq
    rw [List.all_eq_true] at hm
    have hthis := hm (name, cells) (dfCol_mem df name cells hcol)
    simp only [Bool.not_eq_true'] at hthis
    have hgd : cells.getD j Cell.na = c := by
      rw [List.getD_eq_getElem?_getD, hcell]
      rfl
    intro hna
    rw [hgd] at hthis
    rw [hna] at hthis
    simp at hthis

theorem rate100_spec (n d : ℚ) (hn : 0 ≤ n) (hd : 0 ≤ d) :
    0 ≤ rate100 n d ∧ (d = 0 → rate100 n d = 0) ∧ (n ≤ d → rate100 n d ≤ 100) := by
  unfold rate100
  by_cases h : 0 < d
  · refine ⟨?_, ?_, ?_⟩
    · rw [if_pos h]
      positivity
    · intro h0
      rw [h0] at h
      exact absurd h (lt_irrefl 0)
    · intro hnd
      rw [if_pos h]
      have h1 : n / d ≤ 1 := (div_le_one h).mpr hnd
      calc n / d * 100 ≤ 1 * 100 := by nlinarith
      _ = 100 := one_mul 100
  · rw [if_neg h]
    exact ⟨le_refl 0, fun _ => rfl, fun _ => by norm_num⟩

theorem clean_covid_ok_structure (df out : Df) (hne : dfEmpty df = false)
    (h : clean_covid_data df = Except.ok out) :
    ∃ (d1 : Df) (casesL deathsL recL : List ℚ),
      clipNumericCovid (fillna0 df) = Except.ok d1
      ∧ reqNumCol d1 "cases" = Except.ok casesL
      ∧ reqNumCol d1 "deaths" = Except.ok deathsL
      ∧ reqNumCol d1 "recovered" = Except.ok recL
      ∧ dfCol out "cases" = some (casesL.map Cell.num)
      ∧ dfCol out "deaths" = some (deathsL.map Cell.num)
      ∧ dfCol out "recovered" = some (recL.map Cell.num)
      ∧ dfCol out "case_fatality_rate" =
          some ((List.zipWith rate100 deathsL casesL).map Cell.num)
      ∧ dfCol out "recovery_rate" =
          some ((List.zipWith rate100 recL casesL).map Cell.num) := by
  unfold clean_covid_data at h
  rw [hne] at h
  simp only [Bool.false_eq_true, if_false] at h
  cases hcl : clipNumericCovid (fillna0 df) with
  | error e => rw [hcl] at h; simp only [bind_error_eq] at h; exact absurd h (by simp)
  | ok d1 =>
  rw [hcl] at h
  simp only [bind_ok_eq] at h
  cases hc : reqNumCol d1 "cases" with
  | error e => rw [hc] at h; simp only [bind_error_eq] at h; exact absurd h (by simp)
  | ok casesL =>
  rw [hc] at h
  simp only [bind_ok_eq] at h
  cases hd : reqNumCol d1 "deaths" with
  | error e => rw [hd] at h; simp only [bind_error_eq] at h; exact absurd h (by simp)
  | ok deathsL =>
  rw [hd] at h
  simp only [bind_ok_eq] at h
  rw [reqNumCol_setCol_ne _ _ _ _ (by decide)] at h
  cases hr : reqNumCol d1 "recovered" with
  | error e => rw [hr] at h; simp only [bind_error_eq] at h; exact absurd h (by simp)
  | ok recL =>
  rw [hr] at h
  simp only [bind_ok_eq, Except.ok.injEq] at h
  refine ⟨d1, casesL, deathsL, recL, rfl, hc, hd, hr, ?_, ?_, ?_, ?_, ?_⟩ <;> rw [← h]
  · repeat rw [dfCol_setCol_ne _ _ _ _ (by decide)]
    exact reqNumCol_ok_col _ _ _ hc
  · repeat rw [dfCol_setCol_ne _ _ _ _ (by decide)]
    exact reqNumCol_ok_col _ _ _ hd
  · repeat rw [dfCol_setCol_ne _ _ _ _ (by decide)]
    exact reqNumCol_ok_col _ _ _ hr
  · repeat rw [dfCol_setCol_ne _ _ _ _ (by decide)]
    exact dfCol_setCol_self _ _ _
  · repeat rw [dfCol_setCol_ne _ _ _ _ (by decide)]
    exact dfCol_setCol_self _ _ _

theorem clean_stock_ok_dr (sqrtQ : ℚ → ℚ) (df out : Df) (hne : dfEmpty df = false)
    (h : clean_stock_data sqrtQ df = Except.ok out) :
    ∃ (drCells : List Cell) (dr : List ℚ),
      dfCol (dropna df) "daily_return" = some drCells
      ∧ cellsToNums drCells = Except.ok dr
      ∧ dfCol out "daily_return" =
          some (maskFilter (dr.map (fun q => decide (|q| < 1/2))) drCells) := by
  unfold clean_stock_data at h
  rw [hne] at h
  simp only [Bool.false_eq_true, if_false] at h
  cases hdc : reqCol (dropna df) "daily_return" with
  | error e => rw [hdc] at h; simp only [bind_error_eq] at h; exact absurd h (by simp)
  | ok drCells =>
  rw [hdc] at h
  simp only [bind_ok_eq] at h
  cases hdn : cellsToNums drCells with
  | error e => rw [hdn] at h; simp only [bind_error_eq] at h; exact absurd h (by simp)
  | ok dr =>
  rw [hdn] at h
  simp only [bind_ok_eq] at h
  cases hcl : reqNumCol (dfMask (dropna df)
      (dr.map (fun q => decide (|q| < 1/2)))) "close" with
  | error e => rw [hcl] at h; simp only [bind_error_eq] at h; exact absurd h (by simp)
  | ok closeL =>
  rw [hcl] at h
  simp only [bind_ok_eq] at h
  cases hvl : reqNumCol _ "volume" with
  | error e => rw [hvl] at h; simp only [bind_error_eq] at h; exact absurd h (by simp)
  | ok volumeL =>
  rw [hvl] at h
  simp only [bind_ok_eq, Except.ok.injEq] at h
  refine ⟨drCells, dr, reqCol_ok_col _ _ _ hdc, hdn, ?_⟩
  rw [← h]
  repeat rw [dfCol_setCol_ne _ _ _ _ (by decide)]
  rw [dfCol_dfMask, reqCol_ok_col _ _ _ hdc]
  rfl

/-! The claim theorems. -/

/-- C1 (counterexample): a run in which the counts source raises during
cleaning while the market source would clean successfully ends with
status `failed`, an empty trained-model map, and the market source never
processed — where the claim requires status `completed` with the
remaining domain still run. -/
theorem C1_per_domain_isolation_counterexample :
    run_full_pipeline qId qId trainAllC1 ([] : List String)
        [("covid", dfNoCasesC1), ("stock", stockGoodC1)] =
      PipelineResults.mk "failed" ["KeyError: cases"] []
    ∧ (process_all_data qId qId [("stock", stockGoodC1)]).isOk = true
    ∧ ("failed" : String) ≠ "completed" :=
  ⟨by with_unfolding_all rfl, by with_unfolding_all rfl, by decide⟩

/-- C1 (amended): exceptions in per-domain cleaning/featurization are
caught only by the single whole-pipeline handler: the first one aborts the
source loop (later sources are never examined), is recorded as the run's
error, and forces status `failed` regardless of other domains; status is
`completed` exactly when no stage raised. -/
theorem C1_pipeline_failure_propagation :
    (∀ (sqrtQ logQ : ℚ → ℚ) (α : Type)
       (trainAll : List (String × Df) → Except String α) (noModels : α)
       (raw : List (String × Df)) (e : String),
       process_all_data sqrtQ logQ raw = Except.error e →
       run_full_pipeline sqrtQ logQ trainAll noModels raw =
         PipelineResults.mk "failed" [e] noModels)
    ∧ (∀ (sqrtQ logQ : ℚ → ℚ) (α : Type)
       (trainAll : List (String × Df) → Except String α) (noModels : α)
       (raw : List (String × Df)) (pd : List (String × Df)) (tr : α),
       process_all_data sqrtQ logQ raw = Except.ok pd →
       trainAll pd = Except.ok tr →
       run_full_pipeline sqrtQ logQ trainAll noModels raw =
         PipelineResults.mk "completed" [] tr)
    ∧ (∀ (sqrtQ logQ : ℚ → ℚ) (st : ProcState) (name : String) (df : Df)
       (rest rest' : List (String × Df)) (e : String),
       (processOne sqrtQ logQ st name df).2 = Except.error e →
       processGo sqrtQ logQ st ((name, df) :: rest) = Except.error e
       ∧ processGo sqrtQ logQ st ((name, df) :: rest) =
           processGo sqrtQ logQ st ((name, df) :: rest')) := by
  refine ⟨?_, ?_, ?_⟩
  · intro sqrtQ logQ α trainAll noModels raw e h
    simp [run_full_pipeline, h, Except.bind]
  · intro sqrtQ logQ α trainAll noModels raw pd tr h1 h2
    simp [run_full_pipeline, h1, h2, Except.bind]
  · intro sqrtQ logQ st name df rest rest' e h
    constructor <;> simp [processGo, h]

/-- C1 (witness for the amended theorem): a run whose only source cleans
successfully completes with that source trained. -/
theorem C1_pipeline_witness :
    run_full_pipeline qId qId trainAllC1 ([] : List String)
        [("stock", stockGoodC1)] =
      PipelineResults.mk "completed" [] ["stock"] :=
  C1_pipeline_failure_propagation.2.1 qId qId (List String) trainAllC1 []
    [("stock", stockGoodC1)]
    ((process_all_data qId qId [("stock", stockGoodC1)]).toOption.getD [])
    ["stock"] (by with_unfolding_all rfl) (by with_unfolding_all rfl)

/-- C2 (counterexample): a weather training run in which two candidates
tie on held-out accuracy (1/2 each) while the later one has the higher
macro-averaged F1 (1/2 vs 1/3) still selects the earlier candidate — the
claimed macro-F1 tie-break does not exist. -/
theorem C2_tie_break_counterexample :
    ((wrunC2.1.modelMetadata.lookup "weather_classification").map ModelMeta.bestModel =
      some "random_forest")
    ∧ resultAccuracy wrunC2.2 "random_forest" = some (1/2)
    ∧ resultAccuracy wrunC2.2 "logistic_regression" = some (1/2)
    ∧ resultMacF1 wrunC2.2 "random_forest" = some (1/3)
    ∧ resultMacF1 wrunC2.2 "logistic_regression" = some (1/2)
    ∧ ((1 : ℚ)/3 < 1/2)
    ∧ ("random_forest" : String) ≠ "logistic_regression" :=
  ⟨by with_unfolding_all rfl, by with_unfolding_all rfl, by with_unfolding_all rfl,
   by with_unfolding_all rfl, by with_unfolding_all rfl, by norm_num, by decide⟩

/-- C2 (amended): the selection loop keeps the first candidate attaining
the maximal primary metric — `pickBetter` updates only on a strictly
greater score — so ties are resolved by training order and no secondary
metric is consulted. -/
theorem C2_selection_first_max {α : Type} (l : List (α × ℚ)) (c : α × ℚ)
    (h : l.foldl pickBetter none = some c) :
    ∃ i : Nat, l[i]? = some c
      ∧ (∀ j x, j < i → l[j]? = some x → x.2 < c.2)
      ∧ ∀ x ∈ l, x.2 ≤ c.2 := by
  have aux : ∀ (l' : List (α × ℚ)) (b c' : α × ℚ),
      l'.foldl pickBetter (some b) = some c' →
      (∀ x ∈ l', x.2 ≤ c'.2) ∧
        (c' = b ∨ (b.2 < c'.2 ∧ ∃ i : Nat, l'[i]? = some c'
          ∧ ∀ j x, j < i → l'[j]? = some x → x.2 < c'.2)) := by
    intro l'
    induction l' with
    | nil =>
      intro b c' h'
      simp at h'
      exact ⟨by simp, Or.inl h'.symm⟩
    | cons a t ih =>
      intro b c' h'
      rw [List.foldl_cons] at h'
      by_cases hab : b.2 < a.2
      · rw [show pickBetter (some b) a = some a by simp [pickBetter, hab]] at h'
        obtain ⟨h1, h2⟩ := ih a c' h'
        refine ⟨?_, Or.inr ⟨?_, ?_⟩⟩
        · intro x hx
          rcases List.mem_cons.mp hx with rfl | hxt
          · rcases h2 with rfl | ⟨hlt, _⟩
            · exact le_refl _
            · exact le_of_lt hlt
          · exact h1 x hxt
        · rcases h2 with rfl | ⟨hlt, _⟩
          · exact hab
          · exact lt_trans hab hlt
        · rcases h2 with rfl | ⟨hlt, i, hi, hprev⟩
          · exact ⟨0, List.getElem?_cons_zero, by intro j x hj; omega⟩
          · refine ⟨i + 1, by rw [List.getElem?_cons_succ]; exact hi, ?_⟩
            intro j x hj hx
            cases j with
            | zero =>
              rw [List.getElem?_cons_zero, Option.some_inj] at hx
              rw [← hx]
              exact hlt
            | succ k =>
              rw [List.getElem?_cons_succ] at hx
              exact hprev k x (by omega) hx
      · rw [show pickBetter (some b) a = some b by simp [pickBetter, hab]] at h'
        obtain ⟨h1, h2⟩ := ih b c' h'
        refine ⟨?_, ?_⟩
        · intro x hx
          rcases List.mem_cons.mp hx with rfl | hxt
          · rcases h2 with rfl | ⟨hlt, _⟩
            · exact not_lt.mp hab
            · exact le_of_lt (lt_of_le_of_lt (not_lt.mp hab) hlt)
          · exact h1 x hxt
        · rcases h2 with rfl | ⟨hlt, i, hi, hprev⟩
          · exact Or.inl rfl
          · refine Or.inr ⟨hlt, i + 1, by rw [List.getElem?_cons_succ]; exact hi, ?_⟩
            intro j x hj hx
            cases j with
            | zero =>
              rw [List.getElem?_cons_zero, Option.some_inj] at hx
              rw [← hx]
              exact lt_of_le_of_lt (not_lt.mp hab) hlt
            | succ k =>
              rw [List.getElem?_cons_succ] at hx
              exact hprev k x (by omega) hx
  cases l with
  | nil => simp at h
  | cons a t =>
    rw [List.foldl_cons] at h
    rw [show pickBetter (none : Option (α × ℚ)) a = some a from rfl] at h
    obtain ⟨h1, h2⟩ := aux t a c h
    rcases h2 with rfl | ⟨hlt, i, hi, hprev⟩
    · refine ⟨0, List.getElem?_cons_zero, by intro j x hj; omega, ?_⟩
      intro x hx
      rcases List.mem_cons.mp hx with rfl | hxt
      · exact le_refl _
      · exact h1 x hxt
    · refine ⟨i + 1, by rw [List.getElem?_cons_succ]; exact hi, ?_, ?_⟩
      · intro j x hj hx
        cases j with
        | zero =>
          rw [List.getElem?_cons_zero, Option.some_inj] at hx
          rw [← hx]
          exact hlt
        | succ k =>
          rw [List.getElem?_cons_succ] at hx
          exact hprev k x (by omega) hx
      · intro x hx
        rcases List.mem_cons.mp hx with rfl | hxt
        · exact le_of_lt hlt
        · exact h1 x hxt

/-- C2 (witness for the amended theorem): on two candidates tied at 1/2
the fold returns the first, which is maximal and preceded by nothing of
equal score. -/
theorem C2_selection_witness :
    ∃ i : Nat, [((0 : Nat), (1 : ℚ)/2), (1, 1/2)][i]? = some (0, 1/2)
      ∧ (∀ j x, j < i → [((0 : Nat), (1 : ℚ)/2), (1, 1/2)][j]? = some x → x.2 < (1 : ℚ)/2)
      ∧ ∀ x ∈ [((0 : Nat), (1 : ℚ)/2), (1, 1/2)], x.2 ≤ (1 : ℚ)/2 :=
  C2_selection_first_max [((0 : Nat), (1 : ℚ)/2), (1, 1/2)] (0, 1/2) (by with_unfolding_all rfl)

/-- C3 (counterexample): with one fixed registry state, the value
substituted for a missing feature depends on the other supplied
prediction rows (2 in one call, 4 in the other), so it is recomputed from
the supplied rows, not read from a stored training-time artifact. -/
theorem C3_fill_recomputed_counterexample :
    make_prediction stC3 "covid_forecast" exF1C3 = Except.ok [Cell.num 2, Cell.num 2]
    ∧ make_prediction stC3 "covid_forecast" exF2C3 = Except.ok [Cell.num 4, Cell.num 4]
    ∧ Cell.num 2 ≠ Cell.num 4 :=
  ⟨by with_unfolding_all rfl, by with_unfolding_all rfl, by with_unfolding_all decide⟩

/-- C3 (amended): `make_prediction` fills a missing numeric value with the
mean of that column over the rows supplied in the same call (present
values are untouched, and a column with no present value stays missing),
and returns without raising whenever the selected columns are numeric. -/
theorem C3_fill_uses_supplied_mean :
    (∀ cells : List Cell, (∀ c ∈ cells, c = Cell.na ∨ ∃ q, c = Cell.num q) →
      ∃ out, fillColMean cells = Except.ok out
        ∧ out.length = cells.length
        ∧ (∀ (j : Nat) (q : ℚ), cells[j]? = some (Cell.num q) → out[j]? = some (Cell.num q))
        ∧ (∀ j : Nat, cells[j]? = some Cell.na →
            (presentNums cells = [] ∧ out[j]? = some Cell.na)
            ∨ ∃ m, out[j]? = some (Cell.num m)
                ∧ m * (presentNums cells).length = (presentNums cells).sum))
    ∧ (∀ (st : MLState) (name : String) (model : Model) (meta : ModelMeta) (f : Df),
        st.models.lookup name = some model →
        st.modelMetadata.lookup name = some meta →
        (∀ p ∈ dfSelect f (meta.features.filter (fun c => (dfCol f c).isSome)),
          ∀ c ∈ (p.2 : List Cell), c = Cell.na ∨ ∃ q, c = Cell.num q) →
        (make_prediction st name f).isOk = true) := by
  have hfill : ∀ cells : List Cell, (∀ c ∈ cells, c = Cell.na ∨ ∃ q, c = Cell.num q) →
      fillColMean cells = Except.ok (cells.map (fun c => match c with
        | Cell.na => optCell (if (presentNums cells).isEmpty then none
            else some (meanQ (presentNums cells)))
        | c => c)) := by
    intro cells hc
    unfold fillColMean
    rw [if_neg]
    simp only [List.any_eq_true, not_exists, not_and, Bool.not_eq_true]
    intro c hmem
    rcases hc c hmem with rfl | ⟨q, rfl⟩ <;> simp
  refine ⟨?_, ?_⟩
  · intro cells hc
    refine ⟨_, hfill cells hc, by simp, ?_, ?_⟩
    · intro j q hj
      rw [List.getElem?_map, hj]
      rfl
    · intro j hj
      by_cases hp : presentNums cells = []
      · refine Or.inl ⟨hp, ?_⟩
        rw [List.getElem?_map, hj]
        simp [optCell, hp]
      · refine Or.inr ⟨meanQ (presentNums cells), ?_, ?_⟩
        · rw [List.getElem?_map, hj]
          simp [optCell, List.isEmpty_iff, hp]
        · have hlen0 : (presentNums cells).length ≠ 0 := by
            intro h0
            exact hp (List.eq_nil_of_length_eq_zero h0)
          have hlen : ((presentNums cells).length : ℚ) ≠ 0 := Nat.cast_ne_zero.mpr hlen0
          rw [meanQ, div_mul_cancel₀ _ hlen]
  · intro st name model meta f h1 h2 h3
    unfold make_prediction
    rw [h1, h2]
    have hall : ∀ X : Df, (∀ p ∈ X, ∀ c ∈ (p.2 : List Cell), c = Cell.na ∨ ∃ q, c = Cell.num q) →
        ∃ out, fillnaColMean X = Except.ok out := by
      intro X
      induction X with
      | nil => exact fun _ => ⟨[], rfl⟩
      | cons p t ih =>
        intro hX
        obtain ⟨outT, hT⟩ := ih (fun q hq => hX q (List.mem_cons_of_mem _ hq))
        obtain ⟨n, cells⟩ := p
        have hcells := hfill cells (hX (n, cells) (by simp))
        refine ⟨(n, cells.map (fun c => match c with
          | Cell.na => optCell (if (presentNums cells).isEmpty then none
              else some (meanQ (presentNums cells)))
          | c => c)) :: outT, ?_⟩
        rw [show fillnaColMean ((n, cells) :: t) =
          (do
            let c2 ← fillColMean cells
            let tail ← fillnaColMean t
            Except.ok ((n, c2) :: tail)) from rfl, hcells, hT]
        rfl
    obtain ⟨out, hout⟩ := hall _ h3
    simp [hout, Except.map, Except.isOk, Except.toBool]

/-- C6: a `predict` request for a name absent from the registry always
fails with the dedicated not-found condition — the registry raise carries
the specific `Model ... not found` message, and the serving endpoint
answers 404, never the generic 500 branch. -/
theorem C6_unregistered_model_not_found (st : MLState) (model_name : String)
    (features : Df) (h : st.models.lookup model_name = none) :
    make_prediction st model_name features =
      Except.error ("ValueError: Model " ++ model_name ++ " not found")
    ∧ predictEndpoint st model_name features =
      PredictResponse.httpError 404 ("Model '" ++ model_name ++
        "' not found. Available models: " ++
        String.intercalate ", " (st.models.map Prod.fst))
    ∧ ∀ d, predictEndpoint st model_name features ≠ PredictResponse.httpError 500 d := by
  refine ⟨?_, ?_, ?_⟩
  · simp [make_prediction, h]
  · simp [predictEndpoint, h]
  · intro d hcontra
    simp [predictEndpoint, h] at hcontra

/-- C6 (witness): the empty registry answers an unregistered name with the
dedicated 404 condition. -/
theorem C6_witness :
    make_prediction stC6 "covid_forecast" [] =
      Except.error ("ValueError: Model " ++ "covid_forecast" ++ " not found")
    ∧ predictEndpoint stC6 "covid_forecast" [] =
      PredictResponse.httpError 404 ("Model '" ++ "covid_forecast" ++
        "' not found. Available models: " ++
        String.intercalate ", " (stC6.models.map Prod.fst))
    ∧ ∀ d, predictEndpoint stC6 "covid_forecast" [] ≠ PredictResponse.httpError 500 d :=
  C6_unregistered_model_not_found stC6 "covid_forecast" [] rfl

/-- C7: with the fixed split and fixed-seed candidates, the COVID trainer
returns identical results and metadata best-candidate name on repeated
calls over the same feature table — the result does not depend on the
trainer's accumulated state or the wall clock. -/
theorem C7_training_reproducible (split : SplitFn) (cands : List (String × CandImpl))
    (sqrtQ : ℚ → ℚ) (now now' : String) (st st' : MLState) (df : Df) :
    (train_covid_forecasting_model split cands sqrtQ now st df).2 =
      (train_covid_forecasting_model split cands sqrtQ now' st' df).2
    ∧ (train_covid_forecasting_model split cands sqrtQ now'
        (train_covid_forecasting_model split cands sqrtQ now st df).1 df).2 =
      (train_covid_forecasting_model split cands sqrtQ now st df).2
    ∧ ((train_covid_forecasting_model split cands sqrtQ now'
        (train_covid_forecasting_model split cands sqrtQ now st df).1 df).1.modelMetadata.lookup
          "covid_forecast").map ModelMeta.bestModel =
      ((train_covid_forecasting_model split cands sqrtQ now st df).1.modelMetadata.lookup
          "covid_forecast").map ModelMeta.bestModel := by
  cases hc : train_covid_core split cands sqrtQ df <;>
    simp [train_covid_forecasting_model, hc, lookup_updateAssoc_self]

/-- C9: the cleaning-and-featurization step of any domain is independent
of the processor's accumulated encoder state: two successive calls on the
same raw table give identical output. -/
theorem C9_clean_featurize_no_hidden_state (sqrtQ logQ : ℚ → ℚ)
    (st st' : ProcState) (name : String) (df : Df) :
    (processOne sqrtQ logQ st name df).2 = (processOne sqrtQ logQ st' name df).2
    ∧ (processOne sqrtQ logQ (processOne sqrtQ logQ st name df).1 name df).2 =
      (processOne sqrtQ logQ st name df).2 := by
  have key : ∀ s s' : ProcState,
      (processOne sqrtQ logQ s name df).2 = (processOne sqrtQ logQ s' name df).2 := by
    intro s s'
    unfold processOne
    split_ifs <;> simp [clean_weather_data_snd_eq s s' df]
  exact ⟨key st st', key _ st⟩

/-- C10: whenever the COVID trainer hands back the empty dict (too few
rows, too few features, or no surviving candidate), the models, metadata
and feature-importance mappings are exactly as before the call. -/
theorem C10_empty_result_state_unchanged (split : SplitFn)
    (cands : List (String × CandImpl)) (sqrtQ : ℚ → ℚ) (now : String)
    (st st2 : MLState) (df : Df)
    (h : train_covid_forecasting_model split cands sqrtQ now st df =
      (st2, TrainResult.empty)) :
    st2 = st := by
  unfold train_covid_forecasting_model at h
  cases hc : train_covid_core split cands sqrtQ df <;> rw [hc] at h <;>
    simp [Prod.ext_iff] at h
  exact h.symm

/-- C10 (witness): a one-row frame is below the training floor; the call
returns the state it was given. -/
theorem C10_witness :
    (train_covid_forecasting_model splitC10 [] qId "d" stC10 dfC10).1 = stC10 :=
  C10_empty_result_state_unchanged splitC10 [] qId "d" stC10 _ dfC10 rfl

/-- C3 (witness for the amended theorem): the column `[NaN, 2]` fills its
missing entry with the mean of its present values. -/
theorem C3_fill_witness :
    ∃ out, fillColMean [Cell.na, Cell.num 2] = Except.ok out
      ∧ out.length = [Cell.na, Cell.num 2].length
      ∧ (∀ (j : Nat) (q : ℚ),
          [Cell.na, Cell.num 2][j]? = some (Cell.num q) → out[j]? = some (Cell.num q))
      ∧ (∀ j : Nat, [Cell.na, Cell.num 2][j]? = some Cell.na →
          (presentNums [Cell.na, Cell.num 2] = [] ∧ out[j]? = some Cell.na)
          ∨ ∃ m, out[j]? = some (Cell.num m)
              ∧ m * (presentNums [Cell.na, Cell.num 2]).length =
                  (presentNums [Cell.na, Cell.num 2]).sum) :=
  C3_fill_uses_supplied_mean.1 [Cell.na, Cell.num 2] (by
    intro c hc
    fin_cases hc
    · exact Or.inl rfl
    · exact Or.inr ⟨2, rfl⟩)

/-- C4 (counterexample): on a row with 200 deaths against 100 cases the
counts cleaning stores a case-fatality rate of 200, outside `[0, 100]`,
although the divisor is positive. -/
theorem C4_rate_above_100_counterexample :
    clean_covid_data exC4 = Except.ok outC4
    ∧ dfCol outC4 "cases" = some [Cell.num 100]
    ∧ (0 : ℚ) < 100
    ∧ dfCol outC4 "case_fatality_rate" = some [Cell.num 200]
    ∧ ¬((200 : ℚ) ≤ 100) :=
  ⟨by with_unfolding_all rfl, by with_unfolding_all rfl, by norm_num,
   by with_unfolding_all rfl, by norm_num⟩

/-- C4 (amended): each derived rate entry equals
`numerator / denominator * 100` when the denominator is positive and is
exactly 0 when the denominator is 0; it is always nonnegative (inputs are
clipped at zero), but it is bounded by 100 only when the numerator does
not exceed the denominator — which no rule of the code enforces. -/
theorem C4_counts_rate_columns (df out : Df) (hWf : WfDf df)
    (h : clean_covid_data df = Except.ok out) (i : Nat) :
    (∀ c d f : ℚ,
      ((dfCol out "cases").getD [])[i]? = some (Cell.num c) →
      ((dfCol out "deaths").getD [])[i]? = some (Cell.num d) →
      ((dfCol out "case_fatality_rate").getD [])[i]? = some (Cell.num f) →
      f = rate100 d c ∧ 0 ≤ f ∧ (c = 0 → f = 0) ∧ (d ≤ c → f ≤ 100))
    ∧ (∀ c r f : ℚ,
      ((dfCol out "cases").getD [])[i]? = some (Cell.num c) →
      ((dfCol out "recovered").getD [])[i]? = some (Cell.num r) →
      ((dfCol out "recovery_rate").getD [])[i]? = some (Cell.num f) →
      f = rate100 r c ∧ 0 ≤ f ∧ (c = 0 → f = 0) ∧ (r ≤ c → f ≤ 100)) := by
  by_cases hne : dfEmpty df = true
  · have hout : out = df := by
      unfold clean_covid_data at h
      rw [if_pos hne] at h
      injection h with h'
      exact h'.symm
    have hempty : ∀ name : String, ((dfCol out name).getD []) = ([] : List Cell) := by
      intro name
      cases hc : dfCol out name with
      | none => rfl
      | some cells =>
        rw [hout] at hc
        rw [dfEmpty_wf_col_nil df hWf hne name cells hc]
        rfl
    constructor <;> intro c d f h1 h2 h3 <;> rw [hempty] at h3 <;>
      exact absurd h3 (by simp)
  · have hne' : dfEmpty df = false := by simpa using hne
    obtain ⟨d1, casesL, deathsL, recL, hclp, hcR, hdR, hrR, hcC, hdC, hrC, hcfr, hrr⟩ :=
      clean_covid_ok_structure df out hne' h
    have hcNN := reqNumCol_clip_nonneg _ _ hclp _ (by decide) _ hcR
    have hdNN := reqNumCol_clip_nonneg _ _ hclp _ (by decide) _ hdR
    have hrNN := reqNumCol_clip_nonneg _ _ hclp _ (by decide) _ hrR
    constructor
    · intro c d f h1 h2 h3
      rw [hcC] at h1
      rw [hdC] at h2
      rw [hcfr] at h3
      simp only [Option.getD_some, List.getElem?_map] at h1 h2 h3
      cases hci : casesL[i]? with
      | none => rw [hci] at h1; exact absurd h1 (by simp)
      | some cq =>
      rw [hci] at h1
      simp only [Option.map_some', Option.some_inj, Cell.num.injEq] at h1
      cases hdi : deathsL[i]? with
      | none => rw [hdi] at h2; exact absurd h2 (by simp)
      | some dq =>
      rw [hdi] at h2
      simp only [Option.map_some', Option.some_inj, Cell.num.injEq] at h2
      cases hzi : (List.zipWith rate100 deathsL casesL)[i]? with
      | none => rw [hzi] at h3; exact absurd h3 (by simp)
      | some z =>
      rw [hzi] at h3
      simp only [Option.map_some', Option.some_inj, Cell.num.injEq] at h3
      obtain ⟨a, b, ha, hb, hz⟩ := zipWith_getElem?_some rate100 deathsL casesL i z hzi
      rw [hdi, Option.some_inj] at ha
      rw [hci, Option.some_inj] at hb
      subst ha hb
      have hspec := rate100_spec dq cq (hdNN dq (mem_of_getElem?_eq _ _ _ hdi))
        (hcNN cq (mem_of_getElem?_eq _ _ _ hci))
      rw [← h1, ← h2, ← h3, hz]
      exact ⟨rfl, hspec.1, hspec.2.1, hspec.2.2⟩
    · intro c r f h1 h2 h3
      rw [hcC] at h1
      rw [hrC] at h2
      rw [hrr] at h3
      simp only [Option.getD_some, List.getElem?_map] at h1 h2 h3
      cases hci : casesL[i]? with
      | none => rw [hci] at h1; exact absurd h1 (by simp)
      | some cq =>
      rw [hci] at h1
      simp only [Option.map_some', Option.some_inj, Cell.num.injEq] at h1
      cases hri : recL[i]? with
      | none => rw [hri] at h2; exact absurd h2 (by simp)
      | some rq =>
      rw [hri] at h2
      simp only [Option.map_some', Option.some_inj, Cell.num.injEq] at h2
      cases hzi : (List.zipWith rate100 recL casesL)[i]? with
      | none => rw [hzi] at h3; exact absurd h3 (by simp)
      | some z =>
      rw [hzi] at h3
      simp only [Option.map_some', Option.some_inj, Cell.num.injEq] at h3
      obtain ⟨a, b, ha, hb, hz⟩ := zipWith_getElem?_some rate100 recL casesL i z hzi
      rw [hri, Option.some_inj] at ha
      rw [hci, Option.some_inj] at hb
      subst ha hb
      have hspec := rate100_spec rq cq (hrNN rq (mem_of_getElem?_eq _ _ _ hri))
        (hcNN cq (mem_of_getElem?_eq _ _ _ hci))
      rw [← h1, ← h2, ← h3, hz]
      exact ⟨rfl, hspec.1, hspec.2.1, hspec.2.2⟩

/-- C4 (witness for the amended theorem): the counterexample row satisfies
the amended bounds — the rate equals `deaths/cases*100` and is
nonnegative; the `≤ 100` conclusion holds only under its `deaths ≤ cases`
hypothesis. -/
theorem C4_witness :
    WfDf exC4
    ∧ ((200 : ℚ) = rate100 200 100 ∧ (0 : ℚ) ≤ 200 ∧ ((100 : ℚ) = 0 → (200 : ℚ) = 0)
        ∧ ((200 : ℚ) ≤ 100 → (200 : ℚ) ≤ 100)) :=
  ⟨by decide,
   (C4_counts_rate_columns exC4 outC4 (by decide) (by with_unfolding_all rfl) 0).1
     100 200 200 (by with_unfolding_all rfl) (by with_unfolding_all rfl)
     (by with_unfolding_all rfl)⟩

/-- C5 (counterexample): a nonempty counts frame without `cases` makes the
cleaning raise a `KeyError` instead of skipping the rate rule; a nonempty
market frame without `daily_return` likewise; and a counts frame whose
`new_cases` column is string-valued makes the clip loop itself raise a
`TypeError` instead of clipping. -/
theorem C5_missing_column_counterexample :
    clean_covid_data exCovC5 = Except.error "KeyError: cases"
    ∧ clean_stock_data qId exStkC5 = Except.error "KeyError: daily_return"
    ∧ clean_covid_data exClipC5 = Except.error "TypeError: non-numeric column" :=
  ⟨by with_unfolding_all rfl, by with_unfolding_all rfl, by with_unfolding_all rfl⟩

/-- C5 (amended): only the explicitly guarded rules (per-column clipping,
per-column IQR filtering, description encoding) are skipped on a missing
column, and the skip is silent; the clip rules raise a `TypeError` on a
present non-numeric column, and the core derived-column rules hard-require
their inputs — `cases`/`deaths`/`recovered` for counts,
`daily_return`/`close`/`volume` for market series.  When the required
columns are present with numeric-or-missing cells, and every present clip
column is numeric-or-missing, the cleaning cannot raise, whatever other
columns are absent. -/
theorem C5_required_columns :
    (∀ df : Df, numOrNaColB df "cases" = true → numOrNaColB df "deaths" = true →
      numOrNaColB df "recovered" = true →
      covidClipCols.all (fun n => numOrNaIfPresentB df n) = true →
      (clean_covid_data df).isOk = true)
    ∧ (∀ (sqrtQ : ℚ → ℚ) (df : Df), numOrNaColB df "daily_return" = true →
      numOrNaColB df "close" = true → numOrNaColB df "volume" = true →
      (clean_stock_data sqrtQ df).isOk = true) := by
  have hdrop : ∀ (df : Df) (name : String), numOrNaColB df name = true →
      ∃ cells, dfCol (dropna df) name = some cells
        ∧ ∀ c ∈ cells, ∃ q, c = Cell.num q := by
    intro df name hb
    unfold numOrNaColB at hb
    cases hc : dfCol df name with
    | none => rw [hc] at hb; exact absurd hb (by simp)
    | some cells =>
      rw [hc] at hb
      rw [List.all_eq_true] at hb
      refine ⟨maskFilter (dropnaMask df) cells, ?_, ?_⟩
      · unfold dropna
        rw [dfCol_dfMask, hc]
        rfl
      · intro c hcm
        have hnena := dropna_no_na df name cells hc c hcm
        have hmemc : c ∈ cells := by
          obtain ⟨j, _, hj⟩ := mem_maskFilter _ _ _ hcm
          exact mem_of_getElem?_eq _ _ _ hj
        have hb0 := hb c hmemc
        cases c with
        | na => exact absurd rfl hnena
        | num q => exact ⟨q, rfl⟩
        | str s3 => simp at hb0
        | dt t3 => simp at hb0
  refine ⟨?_, ?_⟩
  · intro df h1 h2 h3 h4
    unfold clean_covid_data
    by_cases he : dfEmpty df = true
    · rw [if_pos he]
      rfl
    · rw [if_neg he]
      have h4' : ∀ m ∈ covidClipCols, numOrNaIfPresentB (fillna0 df) m = true := by
        intro m hm
        have hb := (List.all_eq_true.mp h4) m hm
        unfold numOrNaIfPresentB at hb ⊢
        rw [dfCol_fillna0]
        cases hc : dfCol df m with
        | none => simp
        | some cells =>
          rw [hc] at hb
          simp only [Option.map_some']
          rw [List.all_eq_true] at hb ⊢
          intro c hcm
          rw [List.mem_map] at hcm
          obtain ⟨c0, hc0, rfl⟩ := hcm
          have hb0 := hb c0 hc0
          cases c0 with
          | na => simp [fill0Cell]
          | num q => simp [fill0Cell]
          | str s3 => simp at hb0
          | dt t3 => simp at hb0
      obtain ⟨d1, hd1⟩ := clipFold_ok covidClipCols (fillna0 df) h4'
      have hd1' : clipNumericCovid (fillna0 df) = Except.ok d1 := hd1
      rw [hd1']
      simp only [bind_ok_eq]
      have hreq : ∀ name, name ∈ covidClipCols → numOrNaColB df name = true →
          ∃ l, reqNumCol d1 name = Except.ok l := by
        intro name hmem hb
        unfold numOrNaColB at hb
        cases hc : dfCol df name with
        | none => rw [hc] at hb; exact absurd hb (by simp)
        | some cells =>
          rw [hc] at hb
          rw [List.all_eq_true] at hb
          unfold reqNumCol
          rw [dfCol_clipCovid _ _ hd1' name hmem, dfCol_fillna0, hc]
          simp only [Option.map_some']
          rw [List.map_map]
          apply cellsToNums_ok_of_num
          intro c hcm
          rw [List.mem_map] at hcm
          obtain ⟨c0, hc0, rfl⟩ := hcm
          have hb0 := hb c0 hc0
          cases c0 with
          | na => exact ⟨max 0 0, rfl⟩
          | num q => exact ⟨max q 0, rfl⟩
          | str s3 => simp at hb0
          | dt t3 => simp at hb0
      obtain ⟨cL, hcL⟩ := hreq "cases" (by decide) h1
      obtain ⟨dL, hdL⟩ := hreq "deaths" (by decide) h2
      obtain ⟨rL, hrL⟩ := hreq "recovered" (by decide) h3
      rw [hcL]
      simp only [bind_ok_eq]
      rw [hdL]
      simp only [bind_ok_eq]
      rw [reqNumCol_setCol_ne _ _ _ _ (by decide), hrL]
      simp only [bind_ok_eq]
      rfl
  · intro sqrtQ df h1 h2 h3
    unfold clean_stock_data
    by_cases he : dfEmpty df = true
    · rw [if_pos he]
      rfl
    · rw [if_neg he]
      simp only []
      obtain ⟨drCells, hdrc, hdrn⟩ := hdrop df "daily_return" h1
      obtain ⟨clCells, hclc, hcln⟩ := hdrop df "close" h2
      obtain ⟨vlCells, hvlc, hvln⟩ := hdrop df "volume" h3
      rw [show reqCol (dropna df) "daily_return" = Except.ok drCells by
        unfold reqCol
        rw [hdrc]]
      simp only [bind_ok_eq]
      obtain ⟨dr, hdr⟩ := cellsToNums_ok_of_num drCells hdrn
      rw [hdr]
      simp only [bind_ok_eq]
      have hmaskcol : ∀ (cells : List Cell),
          (∀ c ∈ cells, ∃ q, c = Cell.num q) →
          ∃ l, cellsToNums
            (maskFilter (dr.map (fun q => decide (|q| < 1/2))) cells) = Except.ok l := by
        intro cells hnum
        apply cellsToNums_ok_of_num
        intro c hcm
        obtain ⟨j, _, hj⟩ := mem_maskFilter _ _ _ hcm
        exact hnum c (mem_of_getElem?_eq _ _ _ hj)
      obtain ⟨clL, hclL⟩ := hmaskcol clCells hcln
      rw [show reqNumCol (dfMask (dropna df)
          (dr.map (fun q => decide (|q| < 1/2)))) "close" = Except.ok clL by
        unfold reqNumCol
        rw [dfCol_dfMask, hclc]
        exact hclL]
      simp only [bind_ok_eq]
      obtain ⟨vlL, hvlL⟩ := hmaskcol vlCells hvln
      repeat rw [reqNumCol_setCol_ne _ _ _ _ (by decide)]
      rw [show reqNumCol (dfMask (dropna df)
          (dr.map (fun q => decide (|q| < 1/2)))) "volume" = Except.ok vlL by
        unfold reqNumCol
        rw [dfCol_dfMask, hvlc]
        exact hvlL]
      simp only [bind_ok_eq]
      rfl

/-- C5 (witness for the amended theorem): counts and market frames with
the required numeric columns — and the guarded columns absent — clean
without raising. -/
theorem C5_witness :
    (clean_covid_data okCovC5).isOk = true
    ∧ (clean_stock_data qId okStkC5).isOk = true :=
  ⟨C5_required_columns.1 okCovC5 (by decide) (by decide) (by decide) (by decide),
   C5_required_columns.2 qId okStkC5 (by decide) (by decide) (by decide)⟩

/-- C8: every row surviving the market cleaning has an absolute
single-sample return of at most 1/2 (the filter keeps `|r| < 0.5`), and on
the 25-row frame with one 80% jump exactly that row is dropped, leaving
24 rows. -/
theorem C8_surviving_returns_bounded :
    (∀ (sqrtQ : ℚ → ℚ) (df : Df), WfDf df → ∀ out,
      clean_stock_data sqrtQ df = Except.ok out →
      ∀ c ∈ (dfCol out "daily_return").getD [], ∃ q, c = Cell.num q ∧ |q| ≤ 1/2)
    ∧ ∀ sqrtQ : ℚ → ℚ, (clean_stock_data sqrtQ exC8).map dfNrows = Except.ok 24 := by
  constructor
  · intro sqrtQ df hWf out h c hc
    by_cases hne : dfEmpty df = true
    · have hout : out = df := by
        unfold clean_stock_data at h
        rw [if_pos hne] at h
        injection h with h'
        exact h'.symm
      rw [hout] at hc
      cases hcol : dfCol df "daily_return" with
      | none => rw [hcol] at hc; exact absurd hc (by simp)
      | some cells =>
        rw [hcol] at hc
        rw [dfEmpty_wf_col_nil df hWf hne _ _ hcol] at hc
        exact absurd hc (by simp)
    · obtain ⟨drCells, dr, hdc, hdn, hcol⟩ :=
        clean_stock_ok_dr sqrtQ df out (by simpa using hne) h
      rw [hcol] at hc
      simp only [Option.getD_some] at hc
      obtain ⟨j, hm, hj⟩ := mem_maskFilter _ _ _ hc
      rw [List.getElem?_map] at hm
      cases hdj : dr[j]? with
      | none => rw [hdj] at hm; exact absurd hm (by simp)
      | some q =>
        rw [hdj] at hm
        simp only [Option.map_some', Option.some_inj] at hm
        have hlt : |q| < 1/2 := of_decide_eq_true hm
        rw [cellsToNums_ok_shape drCells dr hdn] at hj
        rw [List.getElem?_map, hdj] at hj
        simp only [Option.map_some', Option.some_inj] at hj
        exact ⟨q, hj.symm, le_of_lt hlt⟩
  · intro sqrtQ
    with_unfolding_all rfl

/-- C8 (witness): a one-row frame with return 1/100 cleans successfully
and its surviving return is within the bound. -/
theorem C8_witness :
    WfDf df1C8
    ∧ ∀ c ∈ (dfCol out1C8 "daily_return").getD [],
        ∃ q, c = Cell.num q ∧ |q| ≤ 1/2 :=
  ⟨by decide,
   C8_surviving_returns_bounded.1 qId df1C8 (by decide) out1C8
     (by with_unfolding_all rfl)⟩

end DSP
